import Mathlib

/-!
# Dashboard client (`app/static/main.js`): embedding and verified properties

The script is embedded as pure functions over an explicit page state.

* JSON values received from the backend are `JsVal N`, where `N` is the type of
  JavaScript numbers.  The arithmetic and printing of numbers is supplied by a
  `NumberOps N` record; `binary64Ops` is the record of a browser, whose numbers
  are IEEE 754 doubles.
* The page is a record with one field per element the script looks up by id.
  Elements that the script dereferences without a null check (`logs`,
  `statusBadge`, `statusText`, `dataTable`, `lastUpdated`, `inputName`,
  `inputValue`) are present; elements that it null-checks are optional.
* `fetch` and `new Date()` are answered by an environment `Env`; every request
  issued is appended to a trace kept in the state.
* An `async` function is run to completion without interleaving other tasks.
* `console.log`, `console.error` and `alert` have no effect on the state.
-/

namespace Dashboard

/-! ## JavaScript values -/

/-- JSON values as produced by `response.json()`, plus `undefined` and the one
built-in function a property read of the script can reach (`[].keys`). -/
inductive JsVal (N : Type) where
  | undefined : JsVal N
  | null : JsVal N
  | bool (b : Bool) : JsVal N
  | num (n : N) : JsVal N
  | str (s : String) : JsVal N
  | arr (items : List (JsVal N)) : JsVal N
  | obj (fields : List (String × JsVal N)) : JsVal N
  | nativeFn (name : String) : JsVal N

/-- Number primitives of the JavaScript runtime that the script relies on. -/
structure NumberOps (N : Type) where
  /-- `n === 0` (true for `+0` and `-0`). -/
  isZero : N → Bool
  /-- `Number.isNaN(n)`. -/
  isNaN : N → Bool
  /-- `String(n)`. -/
  toStr : N → String
  /-- `a * b`. -/
  mul : N → N → N
  /-- `n.toFixed(1)`. -/
  toFixed1 : N → String
  /-- The number denoted by a non-negative integer literal. -/
  ofNat : Nat → N
  /-- The value `NaN`. -/
  nan : N
  /-- `Number(s)` for a string `s`. -/
  parse : String → N

variable {N : Type}

/-- Joins strings with a separator, as `Array.prototype.join` does. -/
def joinWith (sep : String) : List String → String
  | [] => ""
  | [x] => x
  | x :: y :: rest => x ++ sep ++ joinWith sep (y :: rest)

/-- Holds when a JSON object has an own key `name`. -/
def hasOwnKey (name : String) (fields : List (String × JsVal N)) : Bool :=
  fields.any (fun kv => kv.1 == name)

mutual
/-- The abstract operation `ToString`, used by template literals, `String(v)`
and assignments to `textContent`; the error is the message of the `TypeError`
thrown.  A JSON object is converted by `OrdinaryToPrimitive`: its methods
`toString` and `valueOf` are tried, an own key `toString` (never callable in
JSON) hides `Object.prototype.toString`, and `Object.prototype.valueOf`
returns the object itself, so the conversion throws exactly when the object
has an own key `toString`.  An array is converted by `join`.  The text of a
built-in function and the messages of the errors are those of V8. -/
def JsVal.toStr (ops : NumberOps N) : JsVal N → Except String String
  | .undefined => .ok "undefined"
  | .null => .ok "null"
  | .bool true => .ok "true"
  | .bool false => .ok "false"
  | .num n => .ok (ops.toStr n)
  | .str s => .ok s
  | .arr items =>
    match JsVal.itemStrs ops items with
    | .error e => .error e
    | .ok strs => .ok (joinWith "," strs)
  | .obj fields =>
    if hasOwnKey "toString" fields then .error "Cannot convert object to primitive value"
    else .ok "[object Object]"
  | .nativeFn name => .ok ("function " ++ name ++ "() \x7b [native code] \x7d")
/-- The strings `Array.prototype.join` joins, converted in order: `null` and
`undefined` items give the empty string. -/
def JsVal.itemStrs (ops : NumberOps N) : List (JsVal N) → Except String (List String)
  | [] => .ok []
  | .undefined :: rest =>
    match JsVal.itemStrs ops rest with
    | .error e => .error e
    | .ok strs => .ok ("" :: strs)
  | .null :: rest =>
    match JsVal.itemStrs ops rest with
    | .error e => .error e
    | .ok strs => .ok ("" :: strs)
  | v :: rest =>
    match JsVal.toStr ops v with
    | .error e => .error e
    | .ok text =>
      match JsVal.itemStrs ops rest with
      | .error e => .error e
      | .ok texts => .ok (text :: texts)
end

/-- Truthiness (`ToBoolean`), as used by `if (v)`, `!v` and `v || w`. -/
def JsVal.truthy (ops : NumberOps N) : JsVal N → Bool
  | .undefined => false
  | .null => false
  | .bool b => b
  | .num n => !(ops.isZero n || ops.isNaN n)
  | .str s => s != ""
  | .arr _ => true
  | .obj _ => true
  | .nativeFn _ => true

/-- The expression `a || b`. -/
def JsVal.or (ops : NumberOps N) (a b : JsVal N) : JsVal N :=
  if a.truthy ops then a else b

/-- The test `v === s` against a string literal `s`. -/
def JsVal.strictEqStr : JsVal N → String → Bool
  | .str t, s => t == s
  | _, _ => false

/-- The test `v !== undefined && v !== null`. -/
def JsVal.present : JsVal N → Bool
  | .undefined => false
  | .null => false
  | _ => true

/-- Own-property lookup in a JSON object; the last duplicate key wins, as in
`JSON.parse`. -/
def lookupField (name : String) (fields : List (String × JsVal N)) : JsVal N :=
  match fields.reverse.lookup name with
  | some v => v
  | none => .undefined

/-- The property read `v.name`, for the property names the script reads on
JSON data (`status`, `database`, `cache`, `prometheus`, `grafana`,
`total_records`, `keys`, `memory_mb`, `hit_rate`, `success`, `data`, `count`,
`error`, `id`, `name`, `value`, `created_at`); `length` is read only in
`displayTestData` and is modelled by `JsVal.lengthIsZero`.  Reading a property
of `undefined` or `null` throws a `TypeError`, whose message is the error
value. -/
def JsVal.getProp (v : JsVal N) (name : String) : Except String (JsVal N) :=
  match v with
  | .undefined => .error ("Cannot read properties of undefined (reading \x27" ++ name ++ "\x27)")
  | .null => .error ("Cannot read properties of null (reading \x27" ++ name ++ "\x27)")
  | .bool _ => .ok .undefined
  | .num _ => .ok .undefined
  | .str _ => .ok .undefined
  | .arr _ => .ok (if name == "keys" then .nativeFn "keys" else .undefined)
  | .obj fields => .ok (lookupField name fields)
  | .nativeFn f => .ok (if name == "name" then .str f else .undefined)

/-- The test `v.length === 0` for a value `v` that is neither `undefined` nor
`null`. -/
def JsVal.lengthIsZero (ops : NumberOps N) : JsVal N → Bool
  | .arr items => items.isEmpty
  | .str s => s == ""
  | .obj fields =>
    match lookupField "length" fields with
    | .num n => ops.isZero n
    | _ => false
  | .nativeFn _ => true
  | _ => false

/-- The abstract operation `ToNumber`, applied by `*` to its operands.  An
object or array is first converted by `OrdinaryToPrimitive` with hint number,
which throws in the same cases as `JsVal.toStr` and otherwise yields the same
string. -/
def JsVal.toNumber (ops : NumberOps N) : JsVal N → Except String N
  | .undefined => .ok ops.nan
  | .null => .ok (ops.ofNat 0)
  | .bool true => .ok (ops.ofNat 1)
  | .bool false => .ok (ops.ofNat 0)
  | .num n => .ok n
  | .str s => .ok (ops.parse s)
  | .arr items =>
    match JsVal.toStr ops (.arr items) with
    | .error e => .error e
    | .ok s => .ok (ops.parse s)
  | .obj fields =>
    if hasOwnKey "toString" fields then .error "Cannot convert object to primitive value"
    else .ok ops.nan
  | .nativeFn _ => .ok ops.nan

/-! ## Utility functions -/

/-- The object literal `map` of `escapeHtml`, as a list of its entries. -/
def escapeMap : List (Char × String) :=
  [('&', "&amp;"), ('<', "&lt;"), ('>', "&gt;"), (Char.ofNat 34, "&quot;"), (Char.ofNat 39, "&#039;")]

/-- The character class of the regular expression `/[&<>"']/g`. -/
def escapeClass : List Char :=
  ['&', '<', '>', Char.ofNat 34, Char.ofNat 39]

/-- The read `map[m]` converted to a string, as `replace` does with the
result of its callback. -/
def escapeLookup (m : Char) : String :=
  match escapeMap.lookup m with
  | some r => r
  | none => "undefined"

/-- The call `text.replace(re, fn)` for a global regular expression `re` that
is a single character class `cls`: every match is one character, replaced by
`fn` of it; the text between matches is copied. -/
def replaceClass (cls : List Char) (fn : Char → String) : List Char → List Char
  | [] => []
  | c :: rest =>
    if cls.contains c then (fn c).data ++ replaceClass cls fn rest
    else c :: replaceClass cls fn rest

/-- Function `escapeHtml(text)` for a string `text`.  The class matches ASCII
characters only, so scanning by character or by UTF-16 code unit gives the
same result. -/
def escapeHtml (text : String) : String :=
  ⟨replaceClass escapeClass escapeLookup text.data⟩

/-- The replacement the specification gives for one character. -/
def escapeCharSpec (c : Char) : String :=
  if c = '&' then "&amp;"
  else if c = '<' then "&lt;"
  else if c = '>' then "&gt;"
  else if c = Char.ofNat 34 then "&quot;"
  else if c = Char.ofNat 39 then "&#039;"
  else String.singleton c

/-- The specification of escaping: each character is replaced in place by its
replacement, in order. -/
def escapeHtmlSpec (s : String) : String :=
  ⟨s.data.flatMap (fun c => (escapeCharSpec c).data)⟩

/-- The code points `String.prototype.trim` strips: the ECMAScript white space
and line terminator characters. -/
def isJsWhitespace (c : Char) : Bool :=
  let n := c.toNat
  n == 9 || n == 10 || n == 11 || n == 12 || n == 13 || n == 32 || n == 160 ||
  n == 5760 || (8192 ≤ n && n ≤ 8202) || n == 8232 || n == 8233 || n == 8239 ||
  n == 8287 || n == 12288 || n == 65279

/-- The call `s.trim()`. -/
def jsTrim (s : String) : String :=
  ⟨((s.data.dropWhile isJsWhitespace).reverse.dropWhile isJsWhitespace).reverse⟩

/-! ## Page, environment and state -/

/-- A child `div` of the log panel. -/
structure LogEntry where
  className : String
  textContent : String
deriving DecidableEq, Repr

/-- The `.service-status` child of a service card. -/
structure StatusEl where
  textContent : String
  className : String
deriving DecidableEq, Repr

/-- A service card; `statusEl` is the result of
`element.querySelector('.service-status')`. -/
structure ServiceEl where
  statusEl : Option StatusEl
deriving DecidableEq, Repr

/-- The elements of the page the script reads and writes. -/
structure Page where
  /-- Children of `#logs`, first child first. -/
  logs : List LogEntry
  /-- Attribute `className` of `#statusBadge`. -/
  statusBadge : String
  /-- Text of `#statusText`. -/
  statusText : String
  dbStatus : Option ServiceEl
  cacheStatus : Option ServiceEl
  prometheusStatus : Option ServiceEl
  grafanaStatus : Option ServiceEl
  /-- Text of `#totalRecords`, when the element exists. -/
  totalRecords : Option String
  cacheKeys : Option String
  cacheMemory : Option String
  cacheHitRate : Option String
  /-- Markup (`innerHTML`) of `#dataTable`. -/
  dataTable : String
  /-- Text of `#lastUpdated`. -/
  lastUpdated : String
  /-- Value of the input `#inputName`. -/
  inputName : String
  /-- Value of the input `#inputValue`. -/
  inputValue : String
deriving DecidableEq, Repr

/-- A call of `fetch`: a plain `GET`, or the `POST` of `createTestData` whose
body is `JSON.stringify(\x7b name, value \x7d)`. -/
inductive Request where
  | get (url : String)
  | postJson (url : String) (name value : String)
deriving DecidableEq, Repr

/-- What is recorded in the trace: each call of `fetch` and each entry into
`refreshData`. -/
inductive Event where
  | fetch (r : Request)
  | refresh
deriving DecidableEq, Repr

/-- Outcome of `await fetch(...)`: the promise rejects with an error carrying
a message, or resolves to a response with a status and a body; `json` is the
outcome of `await response.json()`, which throws when the body is not JSON. -/
inductive FetchResult (N : Type) where
  | rejected (message : String)
  | response (status : Nat) (json : Except String (JsVal N))

/-- The outcome of `await (await fetch(...)).json()`. -/
def FetchResult.json : FetchResult N → Except String (JsVal N)
  | .rejected message => .error message
  | .response _ body => body

/-- The value of `response.status`, when the fetch resolved to a response. -/
def FetchResult.status? : FetchResult N → Option Nat
  | .rejected _ => none
  | .response status _ => some status

/-- The world outside the script. -/
structure Env (N : Type) where
  /-- Answer of the backend to a request, given everything issued before. -/
  net : List Event → Request → FetchResult N
  /-- Result of `new Date().toLocaleTimeString()` at the n-th reading of the
  clock. -/
  clock : Nat → String
  /-- Result of `new Date(v).toLocaleString('ru-RU', ...)` with the options of
  `formatDate`. -/
  localeString : JsVal N → String

/-- The state a run of the script acts on. -/
structure State where
  page : Page
  /-- Requests issued and refresh cycles entered so far, oldest first. -/
  trace : List Event
  /-- How many times the clock has been read. -/
  clockReads : Nat
deriving DecidableEq, Repr

/-- Constant `API_BASE`. -/
def API_BASE : String := "/api"

/-- Constant `REFRESH_INTERVAL`, in milliseconds. -/
def REFRESH_INTERVAL : Nat := 30000

/-- The request `fetch('/health')`. -/
def healthRequest : Request := .get "/health"

/-- The request `fetch(API_BASE + '/system/overview')`. -/
def overviewRequest : Request := .get (API_BASE ++ "/system/overview")

/-- The request `fetch(API_BASE + '/test')`. -/
def listRequest : Request := .get (API_BASE ++ "/test")

/-- The call `await fetch(...)`: records the request and asks the backend. -/
def doFetch (env : Env N) (r : Request) (s : State) : State × FetchResult N :=
  ({ s with trace := s.trace ++ [.fetch r] }, env.net s.trace r)

/-! ## Logging -/

/-- The loop `while (children.length > 50) removeChild(lastChild)`; the fuel
is the number of children, which bounds the number of iterations. -/
def trimLoop : Nat → List LogEntry → List LogEntry
  | 0, children => children
  | fuel + 1, children =>
    if children.length > 50 then trimLoop fuel children.dropLast else children

/-- Function `addLog(message, type)`; every call in the script passes `type`,
so the default `info` is not needed. -/
def addLog (env : Env N) (message : String) (type : String) (s : State) : State :=
  let entry : LogEntry :=
    { className := "log-entry " ++ type
      textContent := "[" ++ env.clock s.clockReads ++ "] " ++ message }
  let children := entry :: s.page.logs
  { s with
    page := { s.page with logs := trimLoop children.length children }
    clockReads := s.clockReads + 1 }

/-! ## Health check -/

/-- The lookup `document.getElementById(elementId)` for the service cards. -/
def Page.getService (p : Page) (elementId : String) : Option ServiceEl :=
  if elementId == "dbStatus" then p.dbStatus
  else if elementId == "cacheStatus" then p.cacheStatus
  else if elementId == "prometheusStatus" then p.prometheusStatus
  else if elementId == "grafanaStatus" then p.grafanaStatus
  else none

/-- Writes back a service card found by `Page.getService`. -/
def Page.setService (p : Page) (elementId : String) (el : ServiceEl) : Page :=
  if elementId == "dbStatus" then { p with dbStatus := some el }
  else if elementId == "cacheStatus" then { p with cacheStatus := some el }
  else if elementId == "prometheusStatus" then { p with prometheusStatus := some el }
  else if elementId == "grafanaStatus" then { p with grafanaStatus := some el }
  else p

/-- Function `updateServiceStatus(elementId, status)`. -/
def updateServiceStatus (elementId : String) (status : JsVal N) (p : Page) : Page :=
  match p.getService elementId with
  | none => p
  | some element =>
    match element.statusEl with
    | none => p
    | some _ =>
      p.setService elementId
        { statusEl := some
            { textContent := if status.strictEqStr "connected" then "✓ Online" else "✗ Offline"
              className := "service-status " ++
                (if status.strictEqStr "connected" then "connected" else "disconnected") } }

/-- The statements of the `try` block of `checkHealth` after `data` has been
received; the result is the page and `data`, or the error thrown. -/
def checkHealthBody (data : JsVal N) (p : Page) : Page × Except String (JsVal N) :=
  match data.getProp "status" with
  | .error e => (p, .error e)
  | .ok status =>
    let p1 : Page :=
      if status.strictEqStr "healthy" then
        { p with statusBadge := "status online", statusText := "✓ Все системы в норме" }
      else
        { p with statusBadge := "status offline", statusText := "✗ Некоторые компоненты недоступны" }
    match data.getProp "database" with
    | .error e => (p1, .error e)
    | .ok database =>
      let p2 := updateServiceStatus "dbStatus" database p1
      match data.getProp "cache" with
      | .error e => (p2, .error e)
      | .ok cache =>
        let p3 := updateServiceStatus "cacheStatus" cache p2
        match data.getProp "prometheus" with
        | .error e => (p3, .error e)
        | .ok prometheus =>
          let p4 := updateServiceStatus "prometheusStatus" prometheus p3
          match data.getProp "grafana" with
          | .error e => (p4, .error e)
          | .ok grafana => (updateServiceStatus "grafanaStatus" grafana p4, .ok data)

/-- Function `checkHealth()`: the state afterwards and the value the promise
resolves to (`undefined` when an error was caught). -/
def checkHealth (env : Env N) (s : State) : State × JsVal N :=
  let (s1, res) := doFetch env healthRequest s
  match res.json with
  | .error e => (addLog env ("Health check failed: " ++ e) "error" s1, .undefined)
  | .ok data =>
    match checkHealthBody data s1.page with
    | (p, .error e) => (addLog env ("Health check failed: " ++ e) "error" { s1 with page := p }, .undefined)
    | (p, .ok d) => ({ s1 with page := p }, d)

/-! ## Record table -/

/-- The call `escapeHtml(v)` on an arbitrary value: only strings have a
`replace` method. -/
def escapeHtmlValue : JsVal N → Except String String
  | .str text => .ok (escapeHtml text)
  | .undefined => .error "Cannot read properties of undefined (reading \x27replace\x27)"
  | .null => .error "Cannot read properties of null (reading \x27replace\x27)"
  | _ => .error "text.replace is not a function"

/-- Function `formatDate(dateString)`.  The constructor `new Date(v)` converts
`v` by `ToPrimitive`, which throws in the same cases as `JsVal.toStr`;
`toLocaleString` does not throw. -/
def formatDate (ops : NumberOps N) (env : Env N) (dateString : JsVal N) : Except String String :=
  if !dateString.truthy ops then .ok "-"
  else
    match dateString.toStr ops with
    | .error e => .error e
    | .ok _ => .ok (env.localeString dateString)

/-- The markup of one table row, given the texts of its four cells. -/
def rowMarkup (idText nameHtml valueHtml dateText : String) : String :=
  "\n        <tr>\n            <td>" ++ idText ++
    "</td>\n            <td>" ++ nameHtml ++
    "</td>\n            <td>" ++ valueHtml ++
    "</td>\n            <td>" ++ dateText ++
    "</td>\n        </tr>\n    "

/-- The template literal of `displayTestData` evaluated for one item; the
substitutions are evaluated and converted to strings from left to right. -/
def renderRow (ops : NumberOps N) (env : Env N) (item : JsVal N) : Except String String :=
  match item.getProp "id" with
  | .error e => .error e
  | .ok id =>
    match id.toStr ops with
    | .error e => .error e
    | .ok idText =>
      match item.getProp "name" with
      | .error e => .error e
      | .ok name =>
        match escapeHtmlValue name with
        | .error e => .error e
        | .ok nameHtml =>
          match item.getProp "value" with
          | .error e => .error e
          | .ok value =>
            match escapeHtmlValue (value.or ops (.str "-")) with
            | .error e => .error e
            | .ok valueHtml =>
              match item.getProp "created_at" with
              | .error e => .error e
              | .ok createdAt =>
                match formatDate ops env createdAt with
                | .error e => .error e
                | .ok dateText => .ok (rowMarkup idText nameHtml valueHtml dateText)

/-- The call `data.map(item => ...)` on the items of an array: the first
error thrown aborts the map. -/
def renderRows (ops : NumberOps N) (env : Env N) : List (JsVal N) → Except String (List String)
  | [] => .ok []
  | item :: rest =>
    match renderRow ops env item with
    | .error e => .error e
    | .ok row =>
      match renderRows ops env rest with
      | .error e => .error e
      | .ok rows => .ok (row :: rows)

/-- The row written when there is nothing to show. -/
def noDataRow : String :=
  "<tr><td colspan=\x224\x22 class=\x22text-center\x22>No data available</td></tr>"

/-- Function `displayTestData(data)`; the markup assigned to `innerHTML` is
kept as written. -/
def displayTestData (ops : NumberOps N) (env : Env N) (data : JsVal N) (p : Page) :
    Page × Except String Unit :=
  if !data.truthy ops || data.lengthIsZero ops then
    ({ p with dataTable := noDataRow }, .ok ())
  else
    match data with
    | .arr items =>
      match renderRows ops env items with
      | .error e => (p, .error e)
      | .ok rows => ({ p with dataTable := joinWith "" rows }, .ok ())
    | _ => (p, .error "data.map is not a function")

/-! ## Refresh cycle -/

/-- The expression `overview.database.total_records || '-'`, converted to the
string assigned to `textContent`. -/
def totalRecordsText (ops : NumberOps N) (total : JsVal N) : Except String String :=
  (total.or ops (.str "-")).toStr ops

/-- The expression `(keys !== undefined && keys !== null) ? String(keys) : '-'`. -/
def keysText (ops : NumberOps N) (keys : JsVal N) : Except String String :=
  if keys.present then keys.toStr ops else .ok "-"

/-- The text written to `#cacheMemory`: the value followed by ` MB`, or a dash. -/
def memoryText (ops : NumberOps N) (memory : JsVal N) : Except String String :=
  if memory.present then
    match memory.toStr ops with
    | .error e => .error e
    | .ok text => .ok (text ++ " MB")
  else .ok "-"

/-- The text written to `#cacheHitRate`: `(hitRate * 100).toFixed(1)` followed
by a percent sign, or a dash. -/
def hitRateText (ops : NumberOps N) (hitRate : JsVal N) : Except String String :=
  if hitRate.present then
    match hitRate.toNumber ops with
    | .error e => .error e
    | .ok n => .ok (ops.toFixed1 (ops.mul n (ops.ofNat 100)) ++ "%")
  else .ok "-"

/-- The block `if (overview.database) ...` of `refreshData`. -/
def renderDatabase (ops : NumberOps N) (overview : JsVal N) (p : Page) : Page × Except String Unit :=
  match overview.getProp "database" with
  | .error e => (p, .error e)
  | .ok database =>
    if database.truthy ops then
      match p.totalRecords with
      | none => (p, .ok ())
      | some _ =>
        match database.getProp "total_records" with
        | .error e => (p, .error e)
        | .ok total =>
          match totalRecordsText ops total with
          | .error e => (p, .error e)
          | .ok text => ({ p with totalRecords := some text }, .ok ())
    else (p, .ok ())

/-- The statement `if (cacheKeysEl) ...`. -/
def renderCacheKeys (ops : NumberOps N) (cache : JsVal N) (p : Page) : Page × Except String Unit :=
  match p.cacheKeys with
  | none => (p, .ok ())
  | some _ =>
    match cache.getProp "keys" with
    | .error e => (p, .error e)
    | .ok keys =>
      match keysText ops keys with
      | .error e => (p, .error e)
      | .ok text => ({ p with cacheKeys := some text }, .ok ())

/-- The statement `if (cacheMemoryEl) ...`. -/
def renderCacheMemory (ops : NumberOps N) (cache : JsVal N) (p : Page) : Page × Except String Unit :=
  match p.cacheMemory with
  | none => (p, .ok ())
  | some _ =>
    match cache.getProp "memory_mb" with
    | .error e => (p, .error e)
    | .ok memory =>
      match memoryText ops memory with
      | .error e => (p, .error e)
      | .ok text => ({ p with cacheMemory := some text }, .ok ())

/-- The statement `if (cacheHitRateEl) ...`. -/
def renderCacheHitRate (ops : NumberOps N) (cache : JsVal N) (p : Page) : Page × Except String Unit :=
  match p.cacheHitRate with
  | none => (p, .ok ())
  | some _ =>
    match cache.getProp "hit_rate" with
    | .error e => (p, .error e)
    | .ok hitRate =>
      match hitRateText ops hitRate with
      | .error e => (p, .error e)
      | .ok text => ({ p with cacheHitRate := some text }, .ok ())

/-- The block `if (overview.cache) ...` of `refreshData`. -/
def renderCache (ops : NumberOps N) (overview : JsVal N) (p : Page) : Page × Except String Unit :=
  match overview.getProp "cache" with
  | .error e => (p, .error e)
  | .ok cache =>
    if cache.truthy ops then
      match renderCacheKeys ops cache p with
      | (p1, .error e) => (p1, .error e)
      | (p1, .ok ()) =>
        match renderCacheMemory ops cache p1 with
        | (p2, .error e) => (p2, .error e)
        | (p2, .ok ()) => renderCacheHitRate ops cache p2
    else (p, .ok ())

/-- The two blocks of `refreshData` that render the overview, in order. -/
def renderOverview (ops : NumberOps N) (overview : JsVal N) (p : Page) : Page × Except String Unit :=
  match renderDatabase ops overview p with
  | (p1, .error e) => (p1, .error e)
  | (p1, .ok ()) => renderCache ops overview p1

/-- The statement that writes the time into `#lastUpdated`. -/
def setLastUpdated (env : Env N) (s : State) : State :=
  { s with
    page := { s.page with lastUpdated := env.clock s.clockReads }
    clockReads := s.clockReads + 1 }

/-- The part of the `try` block of `refreshData` from `Get test data` on. -/
def refreshList (ops : NumberOps N) (env : Env N) (s : State) : State × Except String Unit :=
  let (s1, res) := doFetch env listRequest s
  match res.json with
  | .error e => (s1, .error e)
  | .ok testData =>
    match testData.getProp "success" with
    | .error e => (s1, .error e)
    | .ok success =>
      if success.truthy ops then
        match testData.getProp "data" with
        | .error e => (s1, .error e)
        | .ok data =>
          match displayTestData ops env data s1.page with
          | (p, .error e) => ({ s1 with page := p }, .error e)
          | (p, .ok ()) =>
            match testData.getProp "count" with
            | .error e => ({ s1 with page := p }, .error e)
            | .ok count =>
              match count.toStr ops with
              | .error e => ({ s1 with page := p }, .error e)
              | .ok countText =>
                (setLastUpdated env
                  (addLog env ("Loaded " ++ countText ++ " records") "success"
                    { s1 with page := p }), .ok ())
      else (setLastUpdated env s1, .ok ())

/-- The `try` block of `refreshData`: the state reached and whether an error
was thrown. -/
def refreshBody (ops : NumberOps N) (env : Env N) (s : State) : State × Except String Unit :=
  let s1 := (checkHealth env s).1
  let (s2, res) := doFetch env overviewRequest s1
  match res.json with
  | .error e => (s2, .error e)
  | .ok overview =>
    match renderOverview ops overview s2.page with
    | (p, .error e) => ({ s2 with page := p }, .error e)
    | (p, .ok ()) => refreshList ops env { s2 with page := p }

/-- Function `refreshData()`.  Entering it is recorded in the trace. -/
def refreshData (ops : NumberOps N) (env : Env N) (s : State) : State :=
  match refreshBody ops env { s with trace := s.trace ++ [.refresh] } with
  | (s1, .ok ()) => s1
  | (s1, .error e) => addLog env ("Failed to refresh data: " ++ e) "error" s1

/-! ## Record creation -/

/-- The `try` block of `createTestData`. -/
def createBody (ops : NumberOps N) (env : Env N) (name value : String) (s : State) :
    State × Except String Unit :=
  let (s1, res) := doFetch env (.postJson (API_BASE ++ "/test") name value) s
  match res with
  | .rejected message => (s1, .error message)
  | .response status body =>
    if status == 201 then
      match body with
      | .error e => (s1, .error e)
      | .ok _ =>
        let s2 := addLog env ("Created record: " ++ name) "success" s1
        let s3 := { s2 with page := { s2.page with inputName := "", inputValue := "" } }
        (refreshData ops env s3, .ok ())
    else if status == 429 then
      (addLog env "Too many requests. Please wait." "error" s1, .ok ())
    else
      match body with
      | .error e => (s1, .error e)
      | .ok error =>
        match error.getProp "error" with
        | .error e => (s1, .error e)
        | .ok msg =>
          match msg.toStr ops with
          | .error e => (s1, .error e)
          | .ok text => (addLog env ("Error: " ++ text) "error" s1, .ok ())

/-- Function `createTestData()`.  The call `refreshData()` it makes is not
awaited and is the last statement executed, so the cycle it starts is run here
to its end. -/
def createTestData (ops : NumberOps N) (env : Env N) (s : State) : State :=
  let name := jsTrim s.page.inputName
  let value := jsTrim s.page.inputValue
  if name == "" then
    addLog env "Please enter a name" "warning" s
  else
    match createBody ops env name value s with
    | (s1, .ok ()) => s1
    | (s1, .error e) => addLog env ("Failed to create record: " ++ e) "error" s1

/-- Function `showRecentRecords()`. -/
def showRecentRecords (ops : NumberOps N) (env : Env N) (s : State) : State :=
  refreshData ops env (addLog env "Showing recent records..." "info" s)

/-! ## Auto-refresh timer -/

/-- The variable `refreshTimer` together with the interval timers of the
browser that call `refreshData`. -/
structure Timers where
  /-- Value of `refreshTimer`; `none` is `undefined`. -/
  refreshTimer : Option Nat
  /-- Handles of the interval timers that are scheduled. -/
  scheduled : List Nat
  /-- The handle the next `setInterval` returns; handles are positive. -/
  nextHandle : Nat
deriving DecidableEq, Repr

/-- The timers when the script is loaded. -/
def Timers.initial : Timers :=
  { refreshTimer := none, scheduled := [], nextHandle := 1 }

/-- Function `startAutoRefresh()`. -/
def startAutoRefresh (t : Timers) : Timers :=
  { refreshTimer := some t.nextHandle
    scheduled := t.scheduled ++ [t.nextHandle]
    nextHandle := t.nextHandle + 1 }

/-- Function `stopAutoRefresh()`. -/
def stopAutoRefresh (t : Timers) : Timers :=
  match t.refreshTimer with
  | none => t
  | some handle =>
    if handle != 0 then { t with scheduled := t.scheduled.filter (fun h => h != handle) } else t

/-- The `DOMContentLoaded` handler: a first refresh cycle is started, then the
timer.  The page state and the timers do not depend on each other. -/
def onDOMContentLoaded (ops : NumberOps N) (env : Env N) (s : State) (t : Timers) :
    State × Timers :=
  (refreshData ops env s, startAutoRefresh t)

/-- A call of one of the two timer functions. -/
inductive TimerCall where
  | start
  | stop
deriving DecidableEq, Repr

/-- Runs a sequence of calls. -/
def runTimerCalls (t : Timers) : List TimerCall → Timers
  | [] => t
  | .start :: rest => runTimerCalls (startAutoRefresh t) rest
  | .stop :: rest => runTimerCalls (stopAutoRefresh t) rest

/-- Holds when every `startAutoRefresh` of the sequence is called while no
timer is scheduled. -/
def startsOnlyWhenStopped (t : Timers) : List TimerCall → Bool
  | [] => true
  | .start :: rest => t.scheduled.isEmpty && startsOnlyWhenStopped (startAutoRefresh t) rest
  | .stop :: rest => startsOnlyWhenStopped (stopAutoRefresh t) rest

/-! ## Numbers as IEEE 754 binary64 -/

/-- The values of the type Number: `NaN`, the two infinities, and the finite
values `±m·2^e`.  A double is a finite value with `m < 2^53` and
`-1074 ≤ e`; the arithmetic below accepts any `m` and `e`. -/
inductive Binary64 where
  | nan
  | inf (neg : Bool)
  | fin (neg : Bool) (m : Nat) (e : Int)
deriving DecidableEq, Repr

/-- The rational value of a finite number; zero for the others. -/
def Binary64.toRat : Binary64 → ℚ
  | .fin neg m e => (if neg then -1 else 1) * ((m : ℚ) * (2 : ℚ) ^ e)
  | _ => 0

/-- Counts the binary digits of `m` by halving; the fuel bounds the number of
halvings. -/
def Binary64.bitLengthAux : Nat → Nat → Nat
  | 0, _ => 0
  | fuel + 1, m => if m = 0 then 0 else Binary64.bitLengthAux fuel (m / 2) + 1

/-- Number of binary digits of `m`. -/
def Binary64.bitLength (m : Nat) : Nat :=
  Binary64.bitLengthAux m m

/-- Holds for the finite values that are doubles: at most 53 significant bits,
no bit below `2^-1074`, magnitude below `2^1024`. -/
def Binary64.representable : Binary64 → Bool
  | .fin _ m e =>
    decide (m < 2 ^ 53) && decide (-1074 ≤ e) &&
      decide ((Binary64.bitLength m : Int) + e ≤ 1024)
  | _ => false

/-- The integer nearest to `m / 2^s`, the even one on a tie. -/
def Binary64.roundShift (m s : Nat) : Nat :=
  if 2 ^ s < 2 * (m % 2 ^ s) ∨ (2 * (m % 2 ^ s) = 2 ^ s ∧ (m / 2 ^ s) % 2 = 1) then
    m / 2 ^ s + 1
  else m / 2 ^ s

/-- The exact value `±m·2^e` rounded to binary64 in the mode
roundTiesToEven: at most 53 significant bits, no bit below `2^-1074`, and an
infinity when the rounded magnitude reaches `2^1024`. -/
def Binary64.round (neg : Bool) (m : Nat) (e : Int) : Binary64 :=
  let shift : Int := max ((Binary64.bitLength m : Int) - 53) (-1074 - e)
  let m1 := if shift ≤ 0 then m else Binary64.roundShift m shift.toNat
  let e1 := if shift ≤ 0 then e else e + shift
  if m1 ≠ 0 ∧ (Binary64.bitLength m1 : Int) + e1 > 1024 then .inf neg else .fin neg m1 e1

/-- The product `a * b` of two Numbers. -/
def Binary64.mul : Binary64 → Binary64 → Binary64
  | .nan, _ => .nan
  | _, .nan => .nan
  | .inf a, .inf b => .inf (a != b)
  | .inf a, .fin b m _ => if m = 0 then .nan else .inf (a != b)
  | .fin a m _, .inf b => if m = 0 then .nan else .inf (a != b)
  | .fin a m1 e1, .fin b m2 e2 => Binary64.round (a != b) (m1 * m2) (e1 + e2)

/-- The Number denoted by a non-negative integer literal. -/
def Binary64.ofNat (n : Nat) : Binary64 :=
  Binary64.round false n 0

/-- The integer `n` for which `n / 10 - m·2^e` is as close to zero as
possible, the larger one when there are two: the rule of
`Number.prototype.toFixed` for one fraction digit. -/
def Binary64.tenths (m : Nat) (e : Int) : Nat :=
  if 0 ≤ e then 10 * m * 2 ^ e.toNat
  else (20 * m + 2 ^ (-e).toNat) / 2 ^ ((-e).toNat + 1)

/-- The decimal digits of `n` with a point before the last one. -/
def Binary64.fixed1 (n : Nat) : String :=
  toString (n / 10) ++ "." ++ toString (n % 10)

/-- The test `m·2^e ≥ 10^21`. -/
def Binary64.atLeast1e21 (m : Nat) (e : Int) : Bool :=
  if 0 ≤ e then decide (10 ^ 21 ≤ m * 2 ^ e.toNat) else decide (10 ^ 21 * 2 ^ (-e).toNat ≤ m)

/-- The call `x.toFixed(1)`; `toStr` is `String(x)`, used for the values that
are not finite or not below `10^21`. -/
def Binary64.toFixed1 (toStr : Binary64 → String) : Binary64 → String
  | .nan => "NaN"
  | .inf neg => if neg then "-Infinity" else "Infinity"
  | .fin neg m e =>
    if Binary64.atLeast1e21 m e then toStr (.fin neg m e)
    else (if neg && m != 0 then "-" else "") ++ Binary64.fixed1 (Binary64.tenths m e)

/-- The number primitives of a browser.  The conversions between Numbers and
decimal text, `String(n)` and `Number(s)`, are parameters. -/
def binary64Ops (toStr : Binary64 → String) (parse : String → Binary64) : NumberOps Binary64 :=
  { isZero := fun n =>
      match n with
      | .fin _ m _ => m == 0
      | _ => false
    isNaN := fun n =>
      match n with
      | .nan => true
      | _ => false
    toStr := toStr
    mul := Binary64.mul
    toFixed1 := Binary64.toFixed1 toStr
    ofNat := Binary64.ofNat
    nan := .nan
    parse := parse }

/-- The rational `q` rounded to one decimal place, counted in tenths; a half
is rounded upward. -/
def roundTenths (q : ℚ) : ℤ :=
  ⌊10 * q + 1 / 2⌋

/-- The double nearest to `0.0015`. -/
def f0015 : Binary64 := .fin false 3458764513820541 (-61)

/-- The double nearest to `0.873`. -/
def f873 : Binary64 := .fin false 3931642474694443 (-52)

/-! ## A runtime, a page and a backend for examples -/

/-- Number primitives restricted to integers, used to evaluate examples. -/
def intOps : NumberOps Int :=
  { isZero := fun n => n == 0
    isNaN := fun _ => false
    toStr := fun n => toString n
    mul := fun a b => a * b
    toFixed1 := fun n => toString n ++ ".0"
    ofNat := fun n => (n : Int)
    nan := 0
    parse := fun s => (s.toInt?).getD 0 }

/-- A page whose optional elements all exist, with `Widget` and `42` typed
into the two inputs. -/
def page0 : Page :=
  { logs := [], statusBadge := "status", statusText := ""
    dbStatus := some ⟨some ⟨"", "service-status"⟩⟩
    cacheStatus := some ⟨some ⟨"", "service-status"⟩⟩
    prometheusStatus := some ⟨some ⟨"", "service-status"⟩⟩
    grafanaStatus := some ⟨some ⟨"", "service-status"⟩⟩
    totalRecords := some "5", cacheKeys := some "-", cacheMemory := some "-"
    cacheHitRate := some "-", dataTable := "", lastUpdated := ""
    inputName := "Widget", inputValue := "42" }

/-- The state at page load. -/
def state0 : State := { page := page0, trace := [], clockReads := 0 }

/-- A backend whose health endpoint is unreachable, whose overview reports
zero everywhere, whose list holds one record named `<script>`, and which
answers a creation with status 201 and an empty body. -/
def envA : Env Int :=
  { net := fun _ r =>
      if r = healthRequest then .rejected "Failed to fetch"
      else if r = overviewRequest then
        .response 200 (.ok (.obj
          [("database", .obj [("total_records", .num 0)]),
           ("cache", .obj [("keys", .num 0), ("memory_mb", .num 0), ("hit_rate", .num 0)])]))
      else if r = listRequest then
        .response 200 (.ok (.obj
          [("success", .bool true),
           ("data", .arr [.obj [("id", .num 1), ("name", .str "<script>")]]),
           ("count", .num 1)]))
      else .response 201 (.error "Unexpected end of JSON input")
    clock := fun _ => "12:00:00"
    localeString := fun _ => "01.01.2024, 00:00:00" }

/-! ## Auxiliary notions used in the statements -/

/-- The log entry `addLog(message, type)` creates when the clock shows `time`. -/
def logEntry (time message type : String) : LogEntry :=
  { className := "log-entry " ++ type, textContent := "[" ++ time ++ "] " ++ message }

/-- The entries created by successive calls of `addLog`, oldest first, when
the first call is the `k`-th reading of the clock. -/
def entriesFrom (env : Env N) (k : Nat) : List (String × String) → List LogEntry
  | [] => []
  | (message, type) :: rest => logEntry (env.clock k) message type :: entriesFrom env (k + 1) rest

/-- Successive calls `addLog(message, type)`, one per pair of the list. -/
def addLogs (env : Env N) (msgs : List (String × String)) (s : State) : State :=
  msgs.foldl (fun st m => addLog env m.1 m.2 st) s

/-- Holds when the outcome of the overview fetch lets the `try` block of
`refreshData` reach the record-list fetch on page `p`: the body is JSON and
rendering it throws no error. -/
def overviewRenders (ops : NumberOps N) (r : Except String (JsVal N)) (p : Page) : Bool :=
  match r with
  | .ok overview =>
    match (renderOverview ops overview p).2 with
    | .ok _ => true
    | .error _ => false
  | .error _ => false

/-- The texts shown in the four cells of a table row, before escaping. -/
structure RowTexts where
  idText : String
  name : String
  value : String
  dateText : String
deriving DecidableEq, Repr

/-- Holds when `item` is a record that `displayTestData` can render: an object
whose `id` converts to the text `row.idText`, whose `name` is the string
`row.name`, for which `item.value || '-'` is the string `row.value`, and whose
`created_at` is formatted as `row.dateText`. -/
def IsRecord (ops : NumberOps N) (env : Env N) (item : JsVal N) (row : RowTexts) : Prop :=
  ∃ fields, item = .obj fields ∧
    (lookupField "id" fields).toStr ops = .ok row.idText ∧
    lookupField "name" fields = .str row.name ∧
    (lookupField "value" fields).or ops (.str "-") = .str row.value ∧
    formatDate ops env (lookupField "created_at" fields) = .ok row.dateText

/-- The markup the specification asks for one record: the identifier and the
date as they are, the name and the value escaped. -/
def rowSpec (row : RowTexts) : String :=
  "\n        <tr>\n            <td>" ++ row.idText ++
    "</td>\n            <td>" ++ escapeHtmlSpec row.name ++
    "</td>\n            <td>" ++ escapeHtmlSpec row.value ++
    "</td>\n            <td>" ++ row.dateText ++
    "</td>\n        </tr>\n    "

/-- The cell texts of `sampleRecords`. -/
def sampleRows : List RowTexts :=
  [⟨"1", "a&b", "x", "-"⟩, ⟨"2", "<script>", "-", "-"⟩]

/-- Two records as the list endpoint sends them; the second is named
`<script>` and has no value. -/
def sampleRecords : List (JsVal Int) :=
  [.obj [("id", .num 1), ("name", .str "a&b"), ("value", .str "x")],
   .obj [("id", .num 2), ("name", .str "<script>")]]

/-- The class of the `.service-status` child of a service card, when the card
and the child exist. -/
def Page.serviceClass (p : Page) (elementId : String) : Option String :=
  match p.getService elementId with
  | some ⟨some statusEl⟩ => some statusEl.className
  | _ => none

/-- The service cards and the field of the health response each one shows. -/
def serviceFields : List (String × String) :=
  [("dbStatus", "database"), ("cacheStatus", "cache"), ("prometheusStatus", "prometheus"),
   ("grafanaStatus", "grafana")]

/-- The values of the two inputs of the creation form. -/
def Page.inputs (p : Page) : String × String :=
  (p.inputName, p.inputValue)

/-- The four metric display values: total records, cache keys, cache memory
and cache hit rate. -/
def Page.metrics (p : Page) : Option String × Option String × Option String × Option String :=
  (p.totalRecords, p.cacheKeys, p.cacheMemory, p.cacheHitRate)

/-- Which of the four metric elements exist on the page. -/
def Page.metricElements (p : Page) : Bool × Bool × Bool × Bool :=
  (p.totalRecords.isSome, p.cacheKeys.isSome, p.cacheMemory.isSome, p.cacheHitRate.isSome)

/-- What neither the health check nor the record list writes: the inputs and
the metric values. -/
def Page.kept (p : Page) :
    (String × String) × Option String × Option String × Option String × Option String :=
  (p.inputs, p.metrics)

/-- Number of `POST` requests in a trace. -/
def postCount (trace : List Event) : Nat :=
  (trace.filter (fun ev =>
    match ev with
    | .fetch (.postJson _ _ _) => true
    | _ => false)).length

/-- Number of refresh cycles entered in a trace. -/
def refreshCount (trace : List Event) : Nat :=
  (trace.filter (fun ev =>
    match ev with
    | .refresh => true
    | _ => false)).length

/-- A backend that is healthy except for its metrics collector, whose overview
is the empty object, whose list is empty, and which confirms a creation with
status 201 and the created record. -/
def envB : Env Int :=
  { net := fun _ r =>
      if r = healthRequest then
        .response 200 (.ok (.obj
          [("status", .str "healthy"), ("database", .str "connected"),
           ("cache", .str "connected"), ("prometheus", .str "disconnected")]))
      else if r = overviewRequest then .response 200 (.ok (.obj []))
      else if r = listRequest then
        .response 200 (.ok (.obj [("success", .bool true), ("data", .arr []), ("count", .num 0)]))
      else .response 201 (.ok (.obj [("id", .num 2), ("name", .str "Widget"), ("value", .str "42")]))
    clock := fun _ => "12:00:00"
    localeString := fun _ => "01.01.2024, 00:00:00" }

/-- A backend that limits the rate of creations: it answers them with status
429, and everything else as `envB` does. -/
def envC : Env Int :=
  { envB with
    net := fun t r =>
      match r with
      | .postJson _ _ _ => .response 429 (.error "Unexpected end of JSON input")
      | _ => envB.net t r }

/-- A healthy backend whose overview reports the hit rate 0.0015 and nothing
else, and whose list request is not successful. -/
def envD : Env Binary64 :=
  { net := fun _ r =>
      if r = healthRequest then .response 200 (.ok (.obj [("status", .str "healthy")]))
      else if r = overviewRequest then
        .response 200 (.ok (.obj [("cache", .obj [("hit_rate", .num f0015)])]))
      else .response 200 (.ok (.obj [("success", .bool false)]))
    clock := fun _ => "12:00:00"
    localeString := fun _ => "01.01.2024, 00:00:00" }

/-- A state whose log panel is full: it holds 50 entries. -/
def fullState : State :=
  { state0 with
    page := { page0 with logs := List.replicate 50 (logEntry "11:00:00" "old" "info") } }

/-- A backend whose health endpoint is unreachable and whose overview reports
as cache keys an object with an own key `toString`. -/
def envE : Env Int :=
  { envA with
    net := fun t r =>
      if r = overviewRequest then
        .response 200 (.ok (.obj [("cache", .obj [("keys", .obj [("toString", .num 1)])])]))
      else envA.net t r }

/-- A backend whose overview reports one record and, as cache keys, an object
with an own key `toString`; everything else is answered as `envB` does. -/
def envF : Env Int :=
  { envB with
    net := fun t r =>
      if r = overviewRequest then
        .response 200 (.ok (.obj
          [("database", .obj [("total_records", .num 1)]),
           ("cache", .obj [("keys", .obj [("toString", .null)]), ("memory_mb", .num 2),
             ("hit_rate", .num 1)])]))
      else envB.net t r }

/-- The state at page load with only blanks typed into the name input. -/
def stateBlank : State :=
  { state0 with page := { page0 with inputName := "  ", inputValue := "x" } }

/-- The state at page load with other metric values on display than in
`state0`. -/
def state1 : State :=
  { state0 with page := { page0 with totalRecords := some "7", cacheKeys := some "3" } }

/-! ## Logging: proofs -/

theorem trimLoop_eq_take (fuel : Nat) (children : List LogEntry)
    (h : children.length ≤ fuel + 50) : trimLoop fuel children = children.take 50 := by
  induction fuel generalizing children with
  | zero =>
    simp only [trimLoop]
    exact (List.take_of_length_le (by omega)).symm
  | succ n ih =>
    simp only [trimLoop]
    split
    · rename_i hlen
      rw [ih _ (by simp [List.length_dropLast]; omega), List.dropLast_eq_take,
        List.take_take]
      congr 1
      omega
    · rename_i hlen
      exact (List.take_of_length_le (by omega)).symm

theorem addLog_logs (env : Env N) (message type : String) (s : State) :
    (addLog env message type s).page.logs =
      (logEntry (env.clock s.clockReads) message type :: s.page.logs).take 50 := by
  simp only [addLog, logEntry]
  exact trimLoop_eq_take _ _ (by omega)

theorem addLog_clockReads (env : Env N) (message type : String) (s : State) :
    (addLog env message type s).clockReads = s.clockReads + 1 := rfl

theorem addLog_trace (env : Env N) (message type : String) (s : State) :
    (addLog env message type s).trace = s.trace := rfl

theorem take_append_take (n : Nat) (a b : List LogEntry) :
    (a ++ b.take n).take n = (a ++ b).take n := by
  rw [List.take_append_eq_append_take, List.take_append_eq_append_take, List.take_take]
  congr 2
  omega

theorem addLog_logs_length (env : Env N) (message type : String) (s : State) :
    (addLog env message type s).page.logs.length ≤ 50 := by
  rw [addLog_logs, List.length_take]
  omega

theorem addLogs_logs (env : Env N) (msgs : List (String × String)) (s : State)
    (hs : s.page.logs.length ≤ 50) :
    (addLogs env msgs s).page.logs =
      ((entriesFrom env s.clockReads msgs).reverse ++ s.page.logs).take 50 := by
  induction msgs generalizing s with
  | nil => simpa [addLogs, entriesFrom] using (List.take_of_length_le hs).symm
  | cons m rest ih =>
    obtain ⟨message, type⟩ := m
    have h := ih (addLog env message type s) (addLog_logs_length env message type s)
    simp only [addLogs, List.foldl_cons] at h ⊢
    rw [h, addLog_logs, addLog_clockReads, take_append_take]
    simp [entriesFrom]

theorem entriesFrom_length (env : Env N) (k : Nat) (msgs : List (String × String)) :
    (entriesFrom env k msgs).length = msgs.length := by
  induction msgs generalizing k with
  | nil => rfl
  | cons m rest ih =>
    obtain ⟨message, type⟩ := m
    simp [entriesFrom, ih]

/-- C1: on a log panel holding at most 50 entries, `addLog` leaves at most 50
entries, puts the new entry first and keeps the previous entries in their
order, dropping only the oldest one when the panel was full; and 51 successive
insertions into an empty panel leave exactly the 50 most recent entries,
newest first. -/
theorem addLog_keeps_50_newest_first (env : Env N) (message type : String) (s : State)
    (h : s.page.logs.length ≤ 50) :
    (addLog env message type s).page.logs.length ≤ 50 ∧
    (addLog env message type s).page.logs.head? =
      some (logEntry (env.clock s.clockReads) message type) ∧
    (addLog env message type s).page.logs.tail =
      (if s.page.logs.length = 50 then s.page.logs.dropLast else s.page.logs) ∧
    ∀ (msgs : List (String × String)) (s0 : State), s0.page.logs = [] → msgs.length = 51 →
      (addLogs env msgs s0).page.logs = ((entriesFrom env s0.clockReads msgs).drop 1).reverse ∧
      (addLogs env msgs s0).page.logs.length = 50 := by
  refine ⟨addLog_logs_length env message type s, ?_, ?_, ?_⟩
  · rw [addLog_logs]
    simp
  · rw [addLog_logs]
    simp only [List.take_succ_cons, List.tail_cons]
    split
    · rename_i h50
      rw [List.dropLast_eq_take, h50]
    · exact List.take_of_length_le (by omega)
  · intro msgs s0 hempty hlen
    have hl := entriesFrom_length env s0.clockReads msgs
    have hstep : (addLogs env msgs s0).page.logs =
        ((entriesFrom env s0.clockReads msgs).drop 1).reverse := by
      rw [addLogs_logs env msgs s0 (by simp [hempty]), hempty, List.append_nil,
        List.reverse_drop, hl, hlen]
    refine ⟨hstep, ?_⟩
    rw [hstep]
    simp [hl, hlen]

/-- Witness for C1: the theorem applied to an empty panel and to a full one. -/
theorem addLog_keeps_50_newest_first_witness :
    (State.mk page0 [] 0).page.logs.length ≤ 50 ∧
    (addLog envA "started" "info" (State.mk page0 [] 0)).page.logs.head? =
      some (logEntry "12:00:00" "started" "info") ∧
    fullState.page.logs.length ≤ 50 ∧
    (addLog envA "started" "info" fullState).page.logs.length ≤ 50 ∧
    (addLog envA "started" "info" fullState).page.logs.head? =
      some (logEntry "12:00:00" "started" "info") ∧
    (addLog envA "started" "info" fullState).page.logs.tail = fullState.page.logs.dropLast :=
  ⟨by decide, (addLog_keeps_50_newest_first envA "started" "info" (State.mk page0 [] 0)
    (by decide)).2.1,
    by decide,
    (addLog_keeps_50_newest_first envA "started" "info" fullState (by decide)).1,
    (addLog_keeps_50_newest_first envA "started" "info" fullState (by decide)).2.1,
    (addLog_keeps_50_newest_first envA "started" "info" fullState (by decide)).2.2.1.trans
      (if_pos (by decide))⟩

/-! ## Escaping: proofs -/

theorem escapeClass_contains (c : Char) :
    escapeClass.contains c =
      (c == '&' || c == '<' || c == '>' || c == Char.ofNat 34 || c == Char.ofNat 39) := by
  simp only [escapeClass, List.contains, List.elem]
  cases c == '&' <;> cases c == '<' <;> cases c == '>' <;> cases c == Char.ofNat 34 <;>
    cases c == Char.ofNat 39 <;> rfl

theorem replace_one_eq_spec (c : Char) :
    (if escapeClass.contains c then (escapeLookup c).data else [c]) = (escapeCharSpec c).data := by
  rw [escapeClass_contains]
  by_cases h1 : c = '&'
  · subst h1; decide
  by_cases h2 : c = '<'
  · subst h2; decide
  by_cases h3 : c = '>'
  · subst h3; decide
  by_cases h4 : c = Char.ofNat 34
  · subst h4; decide
  by_cases h5 : c = Char.ofNat 39
  · subst h5; decide
  simp [h1, h2, h3, h4, h5, escapeCharSpec, String.singleton]

theorem replaceClass_eq_flatMap (l : List Char) :
    replaceClass escapeClass escapeLookup l = l.flatMap (fun c => (escapeCharSpec c).data) := by
  induction l with
  | nil => rfl
  | cons c rest ih =>
    simp only [replaceClass, List.flatMap_cons, ih, ← replace_one_eq_spec c]
    split <;> simp

theorem escapeCharSpec_safe (c d : Char) (hd : d ∈ (escapeCharSpec c).data) :
    d ≠ '<' ∧ d ≠ '>' ∧ d ≠ Char.ofNat 34 ∧ d ≠ Char.ofNat 39 := by
  unfold escapeCharSpec at hd
  split at hd
  · revert d; decide
  split at hd
  · revert d; decide
  split at hd
  · revert d; decide
  split at hd
  · revert d; decide
  split at hd
  · revert d; decide
  · simp [String.singleton] at hd
    subst hd
    exact ⟨by assumption, by assumption, by assumption, by assumption⟩

theorem escapeHtml_script : escapeHtml "<script>" = "&lt;script&gt;" := by decide

theorem escapeHtml_eq_spec (s : String) : escapeHtml s = escapeHtmlSpec s := by
  simp [escapeHtml, escapeHtmlSpec, replaceClass_eq_flatMap]

theorem joinWith_empty_cons (x : String) (l : List String) :
    joinWith "" (x :: l) = x ++ joinWith "" l := by
  cases l with
  | nil => simp [joinWith]
  | cons y rest => simp [joinWith]

theorem foldl_append_init (l : List String) (init : String) :
    l.foldl (fun r t => r ++ t) init = init ++ l.foldl (fun r t => r ++ t) "" := by
  induction l generalizing init with
  | nil => simp
  | cons x rest ih =>
    simp only [List.foldl_cons]
    rw [ih (init ++ x), ih ("" ++ x)]
    simp [String.append_assoc]

theorem joinWith_empty_eq_join (l : List String) : joinWith "" l = String.join l := by
  induction l with
  | nil => rfl
  | cons x rest ih =>
    rw [joinWith_empty_cons, ih]
    simp only [String.join, List.foldl_cons]
    rw [foldl_append_init rest ("" ++ x)]
    simp

theorem renderRow_record (ops : NumberOps N) (env : Env N) (item : JsVal N) (row : RowTexts)
    (h : IsRecord ops env item row) : renderRow ops env item = .ok (rowSpec row) := by
  obtain ⟨fields, rfl, hid, hname, hvalue, hdate⟩ := h
  simp [renderRow, JsVal.getProp, hid, hname, hvalue, hdate, escapeHtmlValue, rowSpec,
    rowMarkup, escapeHtml_eq_spec]

theorem renderRows_records (ops : NumberOps N) (env : Env N) (items : List (JsVal N))
    (rows : List RowTexts) (h : List.Forall₂ (IsRecord ops env) items rows) :
    renderRows ops env items = .ok (rows.map rowSpec) := by
  induction h with
  | nil => rfl
  | cons hrow _ ih => simp [renderRows, renderRow_record ops env _ _ hrow, ih]

theorem displayTestData_records (ops : NumberOps N) (env : Env N) (p : Page)
    (items : List (JsVal N)) (rows : List RowTexts) (hne : items ≠ [])
    (h : List.Forall₂ (IsRecord ops env) items rows) :
    displayTestData ops env (.arr items) p =
      ({ p with dataTable := String.join (rows.map rowSpec) }, .ok ()) := by
  cases items with
  | nil => exact absurd rfl hne
  | cons item rest =>
    simp [displayTestData, JsVal.truthy, JsVal.lengthIsZero,
      renderRows_records ops env _ _ h, joinWith_empty_eq_join]

/-- C2: `escapeHtml(s)` is `s` with each of the five special characters
replaced in place by its entity and all other characters unchanged; its
result contains none of `<`, `>`, the double quote and the apostrophe;
`escapeHtml("<script>")` is `&lt;script&gt;`; and for every non-empty list of
records `displayTestData` writes, record by record, the row whose name and
value cells hold the escaped name and value, so that the name cell of a
record named `<script>` holds the text `&lt;script&gt;`. -/
theorem escapeHtml_replaces_special_characters (s : String) :
    escapeHtml s = escapeHtmlSpec s ∧
    (∀ d ∈ (escapeHtml s).data,
      d ≠ '<' ∧ d ≠ '>' ∧ d ≠ Char.ofNat 34 ∧ d ≠ Char.ofNat 39) ∧
    escapeHtml "<script>" = "&lt;script&gt;" ∧
    (∀ (M : Type) (ops : NumberOps M) (env : Env M) (p : Page) (items : List (JsVal M))
      (rows : List RowTexts), items ≠ [] → List.Forall₂ (IsRecord ops env) items rows →
      displayTestData ops env (.arr items) p =
        ({ p with dataTable := String.join (rows.map rowSpec) }, .ok ())) ∧
    ∀ idText value dateText : String,
      rowSpec ⟨idText, "<script>", value, dateText⟩ =
        "\n        <tr>\n            <td>" ++ idText ++
        "</td>\n            <td>" ++ "&lt;script&gt;" ++
        "</td>\n            <td>" ++ escapeHtmlSpec value ++
        "</td>\n            <td>" ++ dateText ++
        "</td>\n        </tr>\n    " := by
  have hspec := escapeHtml_eq_spec s
  refine ⟨hspec, ?_, escapeHtml_script, ?_, ?_⟩
  · intro d hd
    rw [hspec] at hd
    simp only [escapeHtmlSpec, List.mem_flatMap] at hd
    obtain ⟨c, _, hc⟩ := hd
    exact escapeCharSpec_safe c d hc
  · intro M ops env p items rows hne h
    exact displayTestData_records ops env p items rows hne h
  · intro idText value dateText
    have hs : escapeHtmlSpec "<script>" = "&lt;script&gt;" := by
      rw [← escapeHtml_eq_spec]
      exact escapeHtml_script
    simp only [rowSpec, hs]

set_option maxRecDepth 8000 in
/-- Witness for C2: the table written for two records, the second of which is
named `<script>` and has no value. -/
theorem escapeHtml_replaces_special_characters_witness :
    sampleRecords ≠ [] ∧
    displayTestData intOps envA (.arr sampleRecords) page0 =
      ({ page0 with dataTable := String.join (sampleRows.map rowSpec) }, .ok ()) ∧
    String.join (sampleRows.map rowSpec) =
      "\n        <tr>\n            <td>1</td>\n            <td>a&amp;b</td>" ++
      "\n            <td>x</td>\n            <td>-</td>\n        </tr>\n    " ++
      "\n        <tr>\n            <td>2</td>\n            <td>&lt;script&gt;</td>" ++
      "\n            <td>-</td>\n            <td>-</td>\n        </tr>\n    " :=
  ⟨List.cons_ne_nil _ _,
    (escapeHtml_replaces_special_characters "").2.2.2.1 Int intOps envA page0 sampleRecords
      sampleRows (List.cons_ne_nil _ _)
      (List.Forall₂.cons ⟨_, rfl, rfl, rfl, rfl, rfl⟩
        (List.Forall₂.cons ⟨_, rfl, rfl, rfl, rfl, rfl⟩ List.Forall₂.nil)),
    by rfl⟩

/-! ## Refresh cycle: which requests are issued -/

theorem checkHealth_trace (env : Env N) (s : State) :
    (checkHealth env s).1.trace = s.trace ++ [.fetch healthRequest] := by
  unfold checkHealth doFetch
  simp only
  split
  · rfl
  · split <;> rfl

theorem checkHealth_failure (env : Env N) (s : State) (e : String)
    (h : (env.net s.trace healthRequest).json = .error e) :
    checkHealth env s =
      (addLog env ("Health check failed: " ++ e) "error"
        { s with trace := s.trace ++ [.fetch healthRequest] }, .undefined) := by
  unfold checkHealth doFetch
  simp only [h]

theorem getProp_present (v : JsVal N) (name : String) (h : v.present = true) :
    ∃ w, v.getProp name = .ok w := by
  cases v <;> simp_all [JsVal.getProp, JsVal.present]

theorem getProp_truthy (ops : NumberOps N) (v : JsVal N) (name : String)
    (h : v.truthy ops = true) : ∃ w, v.getProp name = .ok w := by
  cases v <;> simp_all [JsVal.getProp, JsVal.truthy]

theorem getProp_absent (v : JsVal N) (name : String) (h : v.present = false) :
    ∃ e, v.getProp name = .error e := by
  cases v <;> simp_all [JsVal.getProp, JsVal.present]

theorem renderDatabase_eq (ops : NumberOps N) (overview database total : JsVal N) (p : Page)
    (t : String)
    (hd : overview.getProp "database" = .ok database) (ht : database.truthy ops = true)
    (htot : database.getProp "total_records" = .ok total)
    (htext : totalRecordsText ops total = .ok t) :
    renderDatabase ops overview p =
      ({ p with totalRecords := p.totalRecords.map (fun _ => t) }, .ok ()) := by
  obtain ⟨_, _, _, _, _, _, _, totalRecords, _, _, _, _, _, _, _⟩ := p
  cases totalRecords <;> simp [renderDatabase, hd, ht, htot, htext]

theorem renderCache_eq (ops : NumberOps N) (overview cache keys memory hitRate : JsVal N)
    (p : Page) (k m r : String)
    (hc : overview.getProp "cache" = .ok cache) (ht : cache.truthy ops = true)
    (hk : cache.getProp "keys" = .ok keys) (hkt : keysText ops keys = .ok k)
    (hm : cache.getProp "memory_mb" = .ok memory) (hmt : memoryText ops memory = .ok m)
    (hh : cache.getProp "hit_rate" = .ok hitRate) (hht : hitRateText ops hitRate = .ok r) :
    renderCache ops overview p =
      ({ p with
          cacheKeys := p.cacheKeys.map (fun _ => k)
          cacheMemory := p.cacheMemory.map (fun _ => m)
          cacheHitRate := p.cacheHitRate.map (fun _ => r) }, .ok ()) := by
  obtain ⟨_, _, _, _, _, _, _, _, cacheKeys, cacheMemory, cacheHitRate, _, _, _, _⟩ := p
  cases cacheKeys <;> cases cacheMemory <;> cases cacheHitRate <;>
    simp [renderCache, renderCacheKeys, renderCacheMemory, renderCacheHitRate, hc, ht, hk, hm,
      hh, hkt, hmt, hht]

theorem refreshList_trace (ops : NumberOps N) (env : Env N) (s : State) :
    (refreshList ops env s).1.trace = s.trace ++ [.fetch listRequest] := by
  unfold refreshList doFetch
  simp only
  repeat' split
  all_goals rfl

theorem refreshBody_trace (ops : NumberOps N) (env : Env N) (s : State) :
    (refreshBody ops env s).1.trace =
      s.trace ++ [.fetch healthRequest, .fetch overviewRequest] ++
        (if overviewRenders ops
            (env.net (s.trace ++ [.fetch healthRequest]) overviewRequest).json
            (checkHealth env s).1.page
          then [.fetch listRequest] else []) := by
  unfold refreshBody doFetch
  simp only [checkHealth_trace]
  cases hj : (env.net (s.trace ++ [.fetch healthRequest]) overviewRequest).json with
  | error e => simp [overviewRenders]
  | ok overview =>
    rcases hro : renderOverview ops overview (checkHealth env s).1.page with ⟨p1, r1⟩
    cases r1 with
    | error e => simp [overviewRenders, hro]
    | ok u => simp [overviewRenders, hro, refreshList_trace]

theorem refreshData_trace (ops : NumberOps N) (env : Env N) (s : State) :
    (refreshData ops env s).trace =
      s.trace ++ [.refresh, .fetch healthRequest, .fetch overviewRequest] ++
        (if overviewRenders ops
            (env.net (s.trace ++ [.refresh, .fetch healthRequest]) overviewRequest).json
            (checkHealth env { s with trace := s.trace ++ [.refresh] }).1.page
          then [.fetch listRequest] else []) := by
  have h := refreshBody_trace ops env { s with trace := s.trace ++ [.refresh] }
  simp only [List.append_assoc, List.singleton_append, List.cons_append, List.nil_append] at h ⊢
  unfold refreshData
  split
  · rename_i s1 heq
    rw [heq] at h
    exact h
  · rename_i s1 e heq
    rw [heq] at h
    rw [addLog_trace]
    exact h

/-- C3 as stated fails: with a health endpoint that cannot be reached, one
call of `refreshData` still issues the overview fetch and the record-list
fetch. -/
theorem refreshData_health_failure_counterexample :
    (envA.net (state0.trace ++ [.refresh]) healthRequest).json = .error "Failed to fetch" ∧
    (refreshData intOps envA state0).trace =
      [.refresh, .fetch healthRequest, .fetch overviewRequest, .fetch listRequest] :=
  ⟨rfl, by decide⟩

/-- C3, amended: when the health fetch of a refresh cycle fails, `checkHealth`
catches the failure, logs it as a single error entry and changes nothing else
on the page, and the cycle goes on: the overview fetch is issued, and the
record-list fetch is issued after it exactly when the overview response is
JSON and rendering it on that page throws no error. -/
theorem refreshData_health_failure_is_logged_and_cycle_continues (ops : NumberOps N)
    (env : Env N) (s : State) (e : String)
    (h : (env.net (s.trace ++ [.refresh]) healthRequest).json = .error e) :
    (checkHealth env { s with trace := s.trace ++ [.refresh] }).1.page =
      { s.page with logs :=
          (logEntry (env.clock s.clockReads) ("Health check failed: " ++ e) "error" ::
            s.page.logs).take 50 } ∧
    (refreshData ops env s).trace =
      s.trace ++ [.refresh, .fetch healthRequest, .fetch overviewRequest] ++
        (if overviewRenders ops
            (env.net (s.trace ++ [.refresh, .fetch healthRequest]) overviewRequest).json
            { s.page with logs :=
                (logEntry (env.clock s.clockReads) ("Health check failed: " ++ e) "error" ::
                  s.page.logs).take 50 }
          then [.fetch listRequest] else []) := by
  have hpage : (checkHealth env { s with trace := s.trace ++ [.refresh] }).1.page =
      { s.page with logs :=
          (logEntry (env.clock s.clockReads) ("Health check failed: " ++ e) "error" ::
            s.page.logs).take 50 } := by
    rw [checkHealth_failure env _ e h]
    have hl := addLog_logs env ("Health check failed: " ++ e) "error"
      { s with trace := s.trace ++ [.refresh] ++ [.fetch healthRequest] }
    simp only at hl
    rw [← hl]
    rfl
  refine ⟨hpage, ?_⟩
  rw [refreshData_trace, hpage]

/-- Witness for C3: the amended statement at two backends whose health
endpoint is unreachable; the overview of the first renders and the list fetch
follows, the overview of the second throws while its cache keys are converted
to text and the list fetch is not issued. -/
theorem refreshData_health_failure_is_logged_and_cycle_continues_witness :
    (envA.net (state0.trace ++ [.refresh]) healthRequest).json = .error "Failed to fetch" ∧
    (checkHealth envA { state0 with trace := state0.trace ++ [.refresh] }).1.page =
      { state0.page with logs :=
          (logEntry (envA.clock state0.clockReads) ("Health check failed: " ++
            "Failed to fetch") "error" :: state0.page.logs).take 50 } ∧
    (refreshData intOps envA state0).trace =
      [.refresh, .fetch healthRequest, .fetch overviewRequest, .fetch listRequest] ∧
    (envE.net (state0.trace ++ [.refresh]) healthRequest).json = .error "Failed to fetch" ∧
    (refreshData intOps envE state0).trace =
      [.refresh, .fetch healthRequest, .fetch overviewRequest] :=
  ⟨rfl,
    (refreshData_health_failure_is_logged_and_cycle_continues intOps envA state0
      "Failed to fetch" rfl).1,
    (refreshData_health_failure_is_logged_and_cycle_continues intOps envA state0
      "Failed to fetch" rfl).2.trans (by decide),
    rfl,
    (refreshData_health_failure_is_logged_and_cycle_continues intOps envE state0
      "Failed to fetch" rfl).2.trans (by decide)⟩

/-! ## Metric rendering -/

/-- C4 at the failing input: for an overview whose fields are all the number
zero, `refreshData` writes a dash for the total of records, while the cache
fields show their values. -/
theorem refreshData_total_records_zero_renders_dash :
    (envA.net (state0.trace ++ [.refresh, .fetch healthRequest]) overviewRequest).json =
      .ok (.obj
        [("database", .obj [("total_records", .num 0)]),
         ("cache", .obj [("keys", .num 0), ("memory_mb", .num 0), ("hit_rate", .num 0)])]) ∧
    (refreshData intOps envA state0).page.totalRecords = some "-" ∧
    (refreshData intOps envA state0).page.cacheKeys = some "0" ∧
    (refreshData intOps envA state0).page.cacheMemory = some "0 MB" :=
  ⟨rfl, by decide, by decide, by decide⟩

/-! ## Health interpretation -/

theorem strictEqStr_iff (v : JsVal N) (t : String) :
    v.strictEqStr t = true ↔ v = .str t := by
  cases v <;> simp [JsVal.strictEqStr]

theorem checkHealth_object (env : Env N) (s : State) (status : Nat)
    (fields : List (String × JsVal N))
    (h : env.net s.trace healthRequest = .response status (.ok (.obj fields))) :
    (checkHealth env s).1.page =
      updateServiceStatus "grafanaStatus" (lookupField "grafana" fields)
        (updateServiceStatus "prometheusStatus" (lookupField "prometheus" fields)
          (updateServiceStatus "cacheStatus" (lookupField "cache" fields)
            (updateServiceStatus "dbStatus" (lookupField "database" fields)
              (if (lookupField "status" fields).strictEqStr "healthy" then
                { s.page with statusBadge := "status online",
                              statusText := "✓ Все системы в норме" }
              else
                { s.page with statusBadge := "status offline",
                              statusText := "✗ Некоторые компоненты недоступны" })))) := by
  simp [checkHealth, doFetch, h, FetchResult.json, checkHealthBody, JsVal.getProp]

theorem updateServiceStatus_statusBadge (elementId : String) (status : JsVal N) (p : Page) :
    (updateServiceStatus elementId status p).statusBadge = p.statusBadge := by
  unfold updateServiceStatus Page.setService
  repeat' split
  all_goals rfl

theorem updateServiceStatus_class (elementId other : String) (status : JsVal N) (p : Page)
    (hid : elementId ∈ serviceFields.map Prod.fst) (hother : other ∈ serviceFields.map Prod.fst) :
    (updateServiceStatus elementId status p).serviceClass other =
      if other = elementId ∧ (p.serviceClass other).isSome then
        some ("service-status " ++
          (if status.strictEqStr "connected" then "connected" else "disconnected"))
      else p.serviceClass other := by
  obtain ⟨_, _, _, dbStatus, cacheStatus, prometheusStatus, grafanaStatus, _, _, _, _, _, _, _, _⟩ := p
  simp only [serviceFields, List.map, List.mem_cons, List.mem_singleton, List.not_mem_nil,
    or_false] at hid hother
  rcases hid with rfl | rfl | rfl | rfl <;> rcases hother with rfl | rfl | rfl | rfl <;>
    rcases dbStatus with _ | ⟨_ | _⟩ <;> rcases cacheStatus with _ | ⟨_ | _⟩ <;>
    rcases prometheusStatus with _ | ⟨_ | _⟩ <;> rcases grafanaStatus with _ | ⟨_ | _⟩ <;>
    simp [updateServiceStatus, Page.getService, Page.setService, Page.serviceClass]

theorem badge_serviceClass (b : Bool) (p : Page) (c1 t1 c2 t2 : String) (other : String) :
    (if b then { p with statusBadge := c1, statusText := t1 }
      else { p with statusBadge := c2, statusText := t2 }).serviceClass other =
      p.serviceClass other := by
  cases b <;> rfl

theorem connected_class_iff (v : JsVal N) :
    (some ("service-status " ++
        (if v.strictEqStr "connected" then "connected" else "disconnected")) =
      some "service-status connected" ↔ v = .str "connected") ∧
    (some ("service-status " ++
        (if v.strictEqStr "connected" then "connected" else "disconnected")) =
      some "service-status disconnected" ↔ v ≠ .str "connected") := by
  by_cases hv : v.strictEqStr "connected" = true
  · have := (strictEqStr_iff v "connected").1 hv
    simp only [hv, if_true]
    exact ⟨by simp [this], by simp [this]⟩
  · have hne : v ≠ .str "connected" := fun h => hv ((strictEqStr_iff v "connected").2 h)
    simp only [hv]
    exact ⟨by simp [hne], by simp [hne]⟩

/-- C6: for a health response that is an object, `checkHealth` sets the badge
to the online state exactly when the field `status` is the string `healthy`
and to the offline state otherwise; and for each of the four service cards
that exists on the page it renders the class `connected` exactly when the
field of that service is the string `connected`, and `disconnected`
otherwise. -/
theorem checkHealth_badge_and_service_classes (env : Env N) (s : State) (status : Nat)
    (fields : List (String × JsVal N))
    (h : env.net s.trace healthRequest = .response status (.ok (.obj fields))) :
    ((checkHealth env s).1.page.statusBadge = "status online" ↔
      lookupField "status" fields = .str "healthy") ∧
    ((checkHealth env s).1.page.statusBadge = "status offline" ↔
      lookupField "status" fields ≠ .str "healthy") ∧
    ∀ card ∈ serviceFields, (s.page.serviceClass card.1).isSome →
      (((checkHealth env s).1.page.serviceClass card.1 = some "service-status connected" ↔
        lookupField card.2 fields = .str "connected") ∧
      ((checkHealth env s).1.page.serviceClass card.1 = some "service-status disconnected" ↔
        lookupField card.2 fields ≠ .str "connected")) := by
  rw [checkHealth_object env s status fields h]
  refine ⟨?_, ?_, ?_⟩
  · simp only [updateServiceStatus_statusBadge, ← strictEqStr_iff]
    split <;> simp_all
  · simp only [updateServiceStatus_statusBadge, ne_eq, ← strictEqStr_iff]
    split <;> simp_all
  · intro card hmem hsome
    simp only [serviceFields, List.mem_cons, List.mem_singleton, List.not_mem_nil,
      or_false] at hmem
    have hclass : ∀ other ∈ serviceFields.map Prod.fst, ∀ (status : JsVal N) (elementId : String)
        (q : Page), elementId ∈ serviceFields.map Prod.fst →
        (updateServiceStatus elementId status q).serviceClass other =
          if other = elementId ∧ (q.serviceClass other).isSome then
            some ("service-status " ++
              (if status.strictEqStr "connected" then "connected" else "disconnected"))
          else q.serviceClass other :=
      fun other ho status elementId q he => updateServiceStatus_class elementId other status q he ho
    rcases hmem with rfl | rfl | rfl | rfl
    · rw [hclass "dbStatus" (by decide) _ "grafanaStatus" _ (by decide),
        hclass "dbStatus" (by decide) _ "prometheusStatus" _ (by decide),
        hclass "dbStatus" (by decide) _ "cacheStatus" _ (by decide),
        hclass "dbStatus" (by decide) _ "dbStatus" _ (by decide), badge_serviceClass]
      simp only [hsome, and_true, if_true, String.reduceEq, if_false]
      exact connected_class_iff _
    · rw [hclass "cacheStatus" (by decide) _ "grafanaStatus" _ (by decide),
        hclass "cacheStatus" (by decide) _ "prometheusStatus" _ (by decide),
        hclass "cacheStatus" (by decide) _ "cacheStatus" _ (by decide),
        hclass "cacheStatus" (by decide) _ "dbStatus" _ (by decide), badge_serviceClass]
      simp only [hsome, and_true, if_true, String.reduceEq, if_false, Option.isSome_some]
      exact connected_class_iff _
    · rw [hclass "prometheusStatus" (by decide) _ "grafanaStatus" _ (by decide),
        hclass "prometheusStatus" (by decide) _ "prometheusStatus" _ (by decide),
        hclass "prometheusStatus" (by decide) _ "cacheStatus" _ (by decide),
        hclass "prometheusStatus" (by decide) _ "dbStatus" _ (by decide), badge_serviceClass]
      simp only [hsome, and_true, if_true, String.reduceEq, if_false, Option.isSome_some]
      exact connected_class_iff _
    · rw [hclass "grafanaStatus" (by decide) _ "grafanaStatus" _ (by decide),
        hclass "grafanaStatus" (by decide) _ "prometheusStatus" _ (by decide),
        hclass "grafanaStatus" (by decide) _ "cacheStatus" _ (by decide),
        hclass "grafanaStatus" (by decide) _ "dbStatus" _ (by decide), badge_serviceClass]
      simp only [hsome, and_true, if_true, String.reduceEq, if_false, Option.isSome_some]
      exact connected_class_iff _

/-- Witness for C6: the theorem at a backend that reports itself healthy, with
its database connected and its metrics collector disconnected. -/
theorem checkHealth_badge_and_service_classes_witness :
    envB.net state0.trace healthRequest =
      .response 200 (.ok (.obj
        [("status", .str "healthy"), ("database", .str "connected"),
         ("cache", .str "connected"), ("prometheus", .str "disconnected")])) ∧
    ((checkHealth envB state0).1.page.statusBadge = "status online" ↔
      lookupField "status"
        [("status", .str "healthy"), ("database", .str "connected"),
         ("cache", .str "connected"), ("prometheus", JsVal.str "disconnected")] =
        (JsVal.str "healthy" : JsVal Int)) ∧
    (state0.page.serviceClass "dbStatus").isSome = true ∧
    (checkHealth envB state0).1.page.serviceClass "dbStatus" =
      some "service-status connected" ∧
    (state0.page.serviceClass "prometheusStatus").isSome = true ∧
    (checkHealth envB state0).1.page.serviceClass "prometheusStatus" =
      some "service-status disconnected" ∧
    (state0.page.serviceClass "grafanaStatus").isSome = true ∧
    (checkHealth envB state0).1.page.serviceClass "grafanaStatus" =
      some "service-status disconnected" :=
  ⟨rfl, (checkHealth_badge_and_service_classes envB state0 200 _ rfl).1,
    by decide,
    (((checkHealth_badge_and_service_classes envB state0 200 _ rfl).2.2
      ("dbStatus", "database") (by decide) (by decide)).1).2 rfl,
    by decide,
    (((checkHealth_badge_and_service_classes envB state0 200 _ rfl).2.2
      ("prometheusStatus", "prometheus") (by decide) (by decide)).2).2
      (fun h => absurd
        (JsVal.str.inj (h : (JsVal.str "disconnected" : JsVal Int) = JsVal.str "connected"))
        (by decide)),
    by decide,
    (((checkHealth_badge_and_service_classes envB state0 200 _ rfl).2.2
      ("grafanaStatus", "grafana") (by decide) (by decide)).2).2
      (fun h => by cases h)⟩

/-! ## What a refresh cycle leaves alone -/

theorem updateServiceStatus_kept (elementId : String) (status : JsVal N) (p : Page) :
    (updateServiceStatus elementId status p).kept = p.kept := by
  unfold updateServiceStatus Page.setService
  repeat' split
  all_goals rfl

theorem checkHealthBody_kept (data : JsVal N) (p : Page) :
    (checkHealthBody data p).1.kept = p.kept := by
  unfold checkHealthBody
  repeat' split
  all_goals first | rfl | (simp only [updateServiceStatus_kept]; rfl)

theorem addLog_page_kept (env : Env N) (message type : String) (s : State) :
    (addLog env message type s).page.kept = s.page.kept := rfl

theorem checkHealth_kept (env : Env N) (s : State) :
    (checkHealth env s).1.page.kept = s.page.kept := by
  have hb := @checkHealthBody_kept N
  unfold checkHealth doFetch
  simp only
  split
  · rfl
  · rename_i data _
    split
    · rename_i p e heq
      have := hb data s.page
      rw [heq] at this
      exact this
    · rename_i p d heq
      have := hb data s.page
      rw [heq] at this
      exact this

theorem displayTestData_kept (ops : NumberOps N) (env : Env N) (data : JsVal N) (p : Page) :
    (displayTestData ops env data p).1.kept = p.kept := by
  unfold displayTestData
  repeat' split
  all_goals rfl

theorem refreshList_kept (ops : NumberOps N) (env : Env N) (s : State) :
    (refreshList ops env s).1.page.kept = s.page.kept := by
  have hd := displayTestData_kept ops env
  unfold refreshList doFetch
  simp only
  split
  · rfl
  · split
    · rfl
    · split
      · split
        · rfl
        · rename_i data _
          split
          · rename_i p e heq
            have := hd data s.page
            rw [heq] at this
            exact this
          · rename_i p heq
            have := hd data s.page
            rw [heq] at this
            split
            · exact this
            · split
              · exact this
              · exact this
      · rfl

theorem renderDatabase_inputs (ops : NumberOps N) (overview : JsVal N) (p : Page) :
    (renderDatabase ops overview p).1.inputs = p.inputs := by
  unfold renderDatabase
  repeat' split
  all_goals rfl

theorem renderCacheKeys_inputs (ops : NumberOps N) (cache : JsVal N) (p : Page) :
    (renderCacheKeys ops cache p).1.inputs = p.inputs := by
  unfold renderCacheKeys
  repeat' split
  all_goals rfl

theorem renderCacheMemory_inputs (ops : NumberOps N) (cache : JsVal N) (p : Page) :
    (renderCacheMemory ops cache p).1.inputs = p.inputs := by
  unfold renderCacheMemory
  repeat' split
  all_goals rfl

theorem renderCacheHitRate_inputs (ops : NumberOps N) (cache : JsVal N) (p : Page) :
    (renderCacheHitRate ops cache p).1.inputs = p.inputs := by
  unfold renderCacheHitRate
  repeat' split
  all_goals rfl

theorem renderCache_inputs (ops : NumberOps N) (overview : JsVal N) (p : Page) :
    (renderCache ops overview p).1.inputs = p.inputs := by
  unfold renderCache
  split
  · rfl
  · rename_i cache _
    split
    · have h1 := renderCacheKeys_inputs ops cache p
      rcases hk : renderCacheKeys ops cache p with ⟨p1, r1⟩
      rw [hk] at h1
      cases r1 with
      | error e => exact h1
      | ok u =>
        dsimp only
        have h2 := renderCacheMemory_inputs ops cache p1
        rcases hm : renderCacheMemory ops cache p1 with ⟨p2, r2⟩
        rw [hm] at h2
        cases r2 with
        | error e => exact h2.trans h1
        | ok u2 =>
          dsimp only
          have h3 := renderCacheHitRate_inputs ops cache p2
          exact h3.trans (h2.trans h1)
    · rfl

theorem renderOverview_inputs (ops : NumberOps N) (overview : JsVal N) (p : Page) :
    (renderOverview ops overview p).1.inputs = p.inputs := by
  have h1 := renderDatabase_inputs ops overview p
  unfold renderOverview
  rcases hd : renderDatabase ops overview p with ⟨p1, r1⟩
  rw [hd] at h1
  cases r1 with
  | error e => exact h1
  | ok u =>
    dsimp only
    exact (renderCache_inputs ops overview p1).trans h1

theorem refreshBody_inputs (ops : NumberOps N) (env : Env N) (s : State) :
    (refreshBody ops env s).1.page.inputs = s.page.inputs := by
  have hh : (checkHealth env s).1.page.inputs = s.page.inputs :=
    congrArg Prod.fst (checkHealth_kept env s)
  unfold refreshBody doFetch
  simp only
  split
  · exact hh
  · rename_i overview _
    have h1 := renderOverview_inputs ops overview (checkHealth env s).1.page
    rcases hd : renderOverview ops overview (checkHealth env s).1.page with ⟨p1, r1⟩
    rw [hd] at h1
    cases r1 with
    | error e => exact h1.trans hh
    | ok u =>
      dsimp only
      have h3 : (refreshList ops env _).1.page.inputs = _ :=
        congrArg Prod.fst (refreshList_kept ops env
          { page := p1, trace := (checkHealth env s).1.trace ++ [.fetch overviewRequest],
            clockReads := (checkHealth env s).1.clockReads })
      exact h3.trans (h1.trans hh)

theorem refreshData_inputs (ops : NumberOps N) (env : Env N) (s : State) :
    (refreshData ops env s).page.inputs = s.page.inputs := by
  have h := refreshBody_inputs ops env { s with trace := s.trace ++ [.refresh] }
  unfold refreshData
  split
  · rename_i s1 heq
    rw [heq] at h
    exact h
  · rename_i s1 e heq
    rw [heq] at h
    exact h

/-! ## Record creation -/

/-- C7: when the name input is empty after trimming, `createTestData` issues
no request, adds exactly one log entry, of severity warning, and leaves both
inputs as they are. -/
theorem createTestData_empty_name_warns_without_request (ops : NumberOps N) (env : Env N)
    (s : State) (h : jsTrim s.page.inputName = "") :
    (createTestData ops env s).trace = s.trace ∧
    (createTestData ops env s).page.logs =
      (logEntry (env.clock s.clockReads) "Please enter a name" "warning" :: s.page.logs).take 50 ∧
    (createTestData ops env s).page.inputName = s.page.inputName ∧
    (createTestData ops env s).page.inputValue = s.page.inputValue := by
  have hc : createTestData ops env s = addLog env "Please enter a name" "warning" s := by
    simp [createTestData, h]
  rw [hc]
  exact ⟨rfl, addLog_logs env _ _ s, rfl, rfl⟩

/-- Witness for C7: the theorem for a name input holding two blanks. -/
theorem createTestData_empty_name_warns_without_request_witness :
    jsTrim stateBlank.page.inputName = "" ∧
    (createTestData intOps envB stateBlank).trace = stateBlank.trace ∧
    (createTestData intOps envB stateBlank).page.logs =
      (logEntry (envB.clock stateBlank.clockReads) "Please enter a name" "warning" ::
        stateBlank.page.logs).take 50 ∧
    (createTestData intOps envB stateBlank).page.inputName = stateBlank.page.inputName ∧
    (createTestData intOps envB stateBlank).page.inputValue = stateBlank.page.inputValue :=
  ⟨by decide, createTestData_empty_name_warns_without_request intOps envB stateBlank (by decide)⟩

/-- C8 as stated fails: a creation answered with status 201 and a body that is
not JSON leaves the inputs filled and starts no refresh cycle. -/
theorem createTestData_created_counterexample :
    jsTrim state0.page.inputName = "Widget" ∧
    jsTrim state0.page.inputValue = "42" ∧
    (envA.net state0.trace (.postJson (API_BASE ++ "/test") "Widget" "42")).status? = some 201 ∧
    (createTestData intOps envA state0).page.inputs = ("Widget", "42") ∧
    refreshCount (createTestData intOps envA state0).trace = 0 := by
  decide

theorem postCount_append (a b : List Event) : postCount (a ++ b) = postCount a + postCount b := by
  simp [postCount, List.filter_append]

theorem refreshCount_append (a b : List Event) :
    refreshCount (a ++ b) = refreshCount a + refreshCount b := by
  simp [refreshCount, List.filter_append]

theorem refreshData_counts (ops : NumberOps N) (env : Env N) (s : State) :
    postCount (refreshData ops env s).trace = postCount s.trace ∧
    refreshCount (refreshData ops env s).trace = refreshCount s.trace + 1 := by
  rw [refreshData_trace, postCount_append, postCount_append, refreshCount_append,
    refreshCount_append]
  have h1 : postCount [.refresh, .fetch healthRequest, .fetch overviewRequest] = 0 := by decide
  have h2 : postCount [.fetch listRequest] = 0 := by decide
  have h3 : postCount [] = 0 := by decide
  have h4 : refreshCount [.refresh, .fetch healthRequest, .fetch overviewRequest] = 1 := by
    decide
  have h5 : refreshCount [.fetch listRequest] = 0 := by decide
  have h6 : refreshCount [] = 0 := by decide
  split <;> simp [h1, h2, h3, h4, h5, h6]

theorem createBody_created (ops : NumberOps N) (env : Env N) (name value : String) (s : State)
    (data : JsVal N)
    (hnet : env.net s.trace (.postJson (API_BASE ++ "/test") name value) =
      .response 201 (.ok data)) :
    createBody ops env name value s =
      (refreshData ops env
        { page := { (addLog env ("Created record: " ++ name) "success"
              { s with trace := s.trace ++ [.fetch (.postJson (API_BASE ++ "/test") name value)] }).page
              with inputName := "", inputValue := "" }
          trace := s.trace ++ [.fetch (.postJson (API_BASE ++ "/test") name value)]
          clockReads := s.clockReads + 1 }, .ok ()) := by
  simp [createBody, doFetch, hnet, addLog]

theorem createBody_not_created (ops : NumberOps N) (env : Env N) (name value : String)
    (s : State) (status : Nat) (body : Except String (JsVal N))
    (hnet : env.net s.trace (.postJson (API_BASE ++ "/test") name value) =
      .response status body)
    (hstatus : status ≠ 201) :
    (createBody ops env name value s).1.page.inputs = s.page.inputs ∧
    (createBody ops env name value s).1.trace =
      s.trace ++ [.fetch (.postJson (API_BASE ++ "/test") name value)] := by
  unfold createBody doFetch
  simp only [hnet, beq_iff_eq, hstatus, if_false]
  repeat' split
  all_goals exact ⟨rfl, rfl⟩

/-- C8, amended: for a name that is non-empty after trimming, when the backend
answers the creation request with status 201 and a body that is JSON,
`createTestData` issues exactly one `POST` request, empties both inputs and
starts exactly one refresh cycle; when the status is not 201 the inputs are
left as they are and no refresh cycle is started. -/
theorem createTestData_created_clears_inputs_and_refreshes_once (ops : NumberOps N)
    (env : Env N) (s : State) (status : Nat) (body : Except String (JsVal N))
    (hname : jsTrim s.page.inputName ≠ "")
    (hnet : env.net s.trace
        (.postJson (API_BASE ++ "/test") (jsTrim s.page.inputName) (jsTrim s.page.inputValue)) =
      .response status body) :
    (status = 201 → (∃ data, body = .ok data) →
      postCount (createTestData ops env s).trace = postCount s.trace + 1 ∧
      (createTestData ops env s).page.inputs = ("", "") ∧
      refreshCount (createTestData ops env s).trace = refreshCount s.trace + 1) ∧
    (status ≠ 201 →
      (createTestData ops env s).page.inputs = s.page.inputs ∧
      refreshCount (createTestData ops env s).trace = refreshCount s.trace) := by
  constructor
  · rintro rfl ⟨data, rfl⟩
    have hb := createBody_created ops env _ _ s data hnet
    have hc : createTestData ops env s = (createBody ops env (jsTrim s.page.inputName)
        (jsTrim s.page.inputValue) s).1 := by
      simp [createTestData, hname, hb]
    rw [hc, hb]
    simp only
    obtain ⟨hp, hr⟩ := refreshData_counts ops env
      { page := { (addLog env ("Created record: " ++ jsTrim s.page.inputName) "success"
            { s with trace := s.trace ++ [.fetch (.postJson (API_BASE ++ "/test")
              (jsTrim s.page.inputName) (jsTrim s.page.inputValue))] }).page
            with inputName := "", inputValue := "" }
        trace := s.trace ++ [.fetch (.postJson (API_BASE ++ "/test")
          (jsTrim s.page.inputName) (jsTrim s.page.inputValue))]
        clockReads := s.clockReads + 1 }
    refine ⟨?_, ?_, ?_⟩
    · rw [hp, postCount_append]
      rfl
    · rw [refreshData_inputs]
      rfl
    · rw [hr, refreshCount_append]
      rfl
  · intro hstatus
    obtain ⟨hi, ht⟩ := createBody_not_created ops env _ _ s status body hnet hstatus
    unfold createTestData
    simp only [beq_iff_eq, hname, if_false]
    split
    · rename_i s1 heq
      rw [heq] at hi ht
      simp only at hi ht
      refine ⟨hi, ?_⟩
      rw [ht, refreshCount_append]
      rfl
    · rename_i s1 e heq
      rw [heq] at hi ht
      simp only at hi ht
      refine ⟨hi, ?_⟩
      rw [addLog_trace, ht, refreshCount_append]
      rfl

/-- Witness for C8: a creation confirmed with status 201 and the created
record, and a creation refused with status 429. -/
theorem createTestData_created_clears_inputs_and_refreshes_once_witness :
    jsTrim state0.page.inputName ≠ "" ∧
    (postCount (createTestData intOps envB state0).trace = postCount state0.trace + 1 ∧
      (createTestData intOps envB state0).page.inputs = ("", "") ∧
      refreshCount (createTestData intOps envB state0).trace = refreshCount state0.trace + 1) ∧
    ((createTestData intOps envC state0).page.inputs = state0.page.inputs ∧
      refreshCount (createTestData intOps envC state0).trace = refreshCount state0.trace) :=
  ⟨by decide,
    (createTestData_created_clears_inputs_and_refreshes_once intOps envB state0 201 _
      (by decide) rfl).1 rfl ⟨_, rfl⟩,
    (createTestData_created_clears_inputs_and_refreshes_once intOps envC state0 429 _
      (by decide) rfl).2 (by decide)⟩

/-! ## Metrics on display after a refresh cycle -/

/-- C9 as stated fails: with the empty object as overview response, two runs
that start from different displayed values end with different values. -/
theorem refreshData_metrics_counterexample :
    (envB.net (state0.trace ++ [.refresh, .fetch healthRequest]) overviewRequest).json =
      .ok (.obj []) ∧
    (envB.net (state1.trace ++ [.refresh, .fetch healthRequest]) overviewRequest).json =
      .ok (.obj []) ∧
    (refreshData intOps envB state0).page.metrics ≠
      (refreshData intOps envB state1).page.metrics :=
  ⟨rfl, rfl, by decide⟩

/-- When the conversion of a metric value throws, the elements from that one on
keep what they displayed: here the total is written, while keys, memory and
hit rate stay, so the two runs end differently. -/
theorem refreshData_metrics_conversion_error_example :
    (refreshData intOps envF state0).page.metrics = (some "1", some "-", some "-", some "-") ∧
    (refreshData intOps envF state1).page.metrics = (some "1", some "3", some "-", some "-") ∧
    Event.fetch listRequest ∉ (refreshData intOps envF state0).trace := by
  decide

theorem refreshBody_metrics (ops : NumberOps N) (env : Env N) (s : State)
    (overview database cache total keys memory hitRate : JsVal N) (t k m r : String)
    (hov : (env.net (s.trace ++ [.fetch healthRequest]) overviewRequest).json = .ok overview)
    (hd : overview.getProp "database" = .ok database) (hdt : database.truthy ops = true)
    (htot : database.getProp "total_records" = .ok total)
    (htt : totalRecordsText ops total = .ok t)
    (hc : overview.getProp "cache" = .ok cache) (hct : cache.truthy ops = true)
    (hk : cache.getProp "keys" = .ok keys) (hkt : keysText ops keys = .ok k)
    (hm : cache.getProp "memory_mb" = .ok memory) (hmt : memoryText ops memory = .ok m)
    (hh : cache.getProp "hit_rate" = .ok hitRate) (hht : hitRateText ops hitRate = .ok r) :
    (refreshBody ops env s).1.page.metrics =
      (s.page.totalRecords.map (fun _ => t), s.page.cacheKeys.map (fun _ => k),
       s.page.cacheMemory.map (fun _ => m), s.page.cacheHitRate.map (fun _ => r)) := by
  have hkept := checkHealth_kept env s
  have hmet : (checkHealth env s).1.page.metrics = s.page.metrics := congrArg Prod.snd hkept
  simp only [Page.metrics, Prod.mk.injEq] at hmet
  obtain ⟨m1, m2, m3, m4⟩ := hmet
  unfold refreshBody doFetch
  simp only [checkHealth_trace, hov, renderOverview]
  rw [renderDatabase_eq ops overview database total _ t hd hdt htot htt]
  simp only
  rw [renderCache_eq ops overview cache keys memory hitRate _ k m r hc hct hk hkt hm hmt hh hht]
  simp only
  have hl := refreshList_kept ops env
    { page :=
        { (checkHealth env s).1.page with
          totalRecords := (checkHealth env s).1.page.totalRecords.map (fun _ => t)
          cacheKeys := (checkHealth env s).1.page.cacheKeys.map (fun _ => k)
          cacheMemory := (checkHealth env s).1.page.cacheMemory.map (fun _ => m)
          cacheHitRate := (checkHealth env s).1.page.cacheHitRate.map (fun _ => r) }
      trace := s.trace ++ [.fetch healthRequest] ++ [.fetch overviewRequest]
      clockReads := (checkHealth env s).1.clockReads }
  have hl2 := congrArg Prod.snd hl
  simp only [Page.kept] at hl2
  rw [hl2]
  simp only [Page.metrics, m1, m2, m3, m4]

theorem refreshData_metrics_eq (ops : NumberOps N) (env : Env N) (s : State)
    (overview database cache total keys memory hitRate : JsVal N) (t k m r : String)
    (hov : (env.net (s.trace ++ [.refresh, .fetch healthRequest]) overviewRequest).json =
      .ok overview)
    (hd : overview.getProp "database" = .ok database) (hdt : database.truthy ops = true)
    (htot : database.getProp "total_records" = .ok total)
    (htt : totalRecordsText ops total = .ok t)
    (hc : overview.getProp "cache" = .ok cache) (hct : cache.truthy ops = true)
    (hk : cache.getProp "keys" = .ok keys) (hkt : keysText ops keys = .ok k)
    (hm : cache.getProp "memory_mb" = .ok memory) (hmt : memoryText ops memory = .ok m)
    (hh : cache.getProp "hit_rate" = .ok hitRate) (hht : hitRateText ops hitRate = .ok r) :
    (refreshData ops env s).page.metrics =
      (s.page.totalRecords.map (fun _ => t), s.page.cacheKeys.map (fun _ => k),
       s.page.cacheMemory.map (fun _ => m), s.page.cacheHitRate.map (fun _ => r)) := by
  have hb := refreshBody_metrics ops env { s with trace := s.trace ++ [.refresh] } overview
    database cache total keys memory hitRate t k m r (by simpa using hov) hd hdt htot htt hc hct
    hk hkt hm hmt hh hht
  unfold refreshData
  split
  · rename_i s1 heq
    rw [heq] at hb
    exact hb
  · rename_i s1 e heq
    rw [heq] at hb
    exact hb

theorem map_const_eq_of_isSome (a b : Option String) (t : String) (h : a.isSome = b.isSome) :
    a.map (fun _ => t) = b.map (fun _ => t) := by
  cases a <;> cases b <;> simp_all

/-- C9, amended: after a refresh cycle whose overview response has a truthy
`database` field and a truthy `cache` field, and whose four metric values
convert to text without an error, the four metric display values are a
function of that response alone: each element shows the text of its value,
and two runs of `refreshData` on pages with the same metric elements that
receive the same such overview response end with the same four displayed
values, whatever was displayed before. -/
theorem refreshData_metrics_depend_on_overview_only (ops : NumberOps N) (env1 env2 : Env N)
    (s1 s2 : State) (overview database cache total keys memory hitRate : JsVal N)
    (t k m r : String)
    (h1 : (env1.net (s1.trace ++ [.refresh, .fetch healthRequest]) overviewRequest).json =
      .ok overview)
    (h2 : (env2.net (s2.trace ++ [.refresh, .fetch healthRequest]) overviewRequest).json =
      .ok overview)
    (hd : overview.getProp "database" = .ok database) (hdt : database.truthy ops = true)
    (htot : database.getProp "total_records" = .ok total)
    (htt : totalRecordsText ops total = .ok t)
    (hc : overview.getProp "cache" = .ok cache) (hct : cache.truthy ops = true)
    (hk : cache.getProp "keys" = .ok keys) (hkt : keysText ops keys = .ok k)
    (hm : cache.getProp "memory_mb" = .ok memory) (hmt : memoryText ops memory = .ok m)
    (hh : cache.getProp "hit_rate" = .ok hitRate) (hht : hitRateText ops hitRate = .ok r)
    (hel : s1.page.metricElements = s2.page.metricElements) :
    (refreshData ops env1 s1).page.metrics =
      (s1.page.totalRecords.map (fun _ => t), s1.page.cacheKeys.map (fun _ => k),
       s1.page.cacheMemory.map (fun _ => m), s1.page.cacheHitRate.map (fun _ => r)) ∧
    (refreshData ops env1 s1).page.metrics = (refreshData ops env2 s2).page.metrics := by
  have e1 := refreshData_metrics_eq ops env1 s1 overview database cache total keys memory hitRate
    t k m r h1 hd hdt htot htt hc hct hk hkt hm hmt hh hht
  have e2 := refreshData_metrics_eq ops env2 s2 overview database cache total keys memory hitRate
    t k m r h2 hd hdt htot htt hc hct hk hkt hm hmt hh hht
  refine ⟨e1, ?_⟩
  rw [e1, e2]
  simp only [Page.metricElements, Prod.mk.injEq] at hel
  obtain ⟨c1, c2, c3, c4⟩ := hel
  rw [map_const_eq_of_isSome _ _ _ c1, map_const_eq_of_isSome _ _ _ c2,
    map_const_eq_of_isSome _ _ _ c3, map_const_eq_of_isSome _ _ _ c4]

/-- Witness for C9: two runs against the backend reporting zeros, started from
pages that display different values. -/
theorem refreshData_metrics_depend_on_overview_only_witness :
    state0.page.metrics ≠ state1.page.metrics ∧
    (refreshData intOps envA state0).page.metrics = (some "-", some "0", some "0 MB", some "0.0%") ∧
    (refreshData intOps envA state0).page.metrics =
      (refreshData intOps envA state1).page.metrics :=
  ⟨by decide,
    refreshData_metrics_depend_on_overview_only intOps envA envA state0 state1
      (.obj [("database", .obj [("total_records", .num 0)]),
        ("cache", .obj [("keys", .num 0), ("memory_mb", .num 0), ("hit_rate", .num 0)])])
      (.obj [("total_records", .num 0)])
      (.obj [("keys", .num 0), ("memory_mb", .num 0), ("hit_rate", .num 0)])
      (.num 0) (.num 0) (.num 0) (.num 0) "-" "0" "0 MB" "0.0%"
      rfl rfl rfl rfl rfl rfl rfl rfl rfl rfl rfl rfl rfl rfl rfl⟩

/-! ## Auto-refresh timer -/

/-- C10 as stated fails: after two calls of `startAutoRefresh` and one of
`stopAutoRefresh`, the timer created by the first call is still scheduled. -/
theorem stopAutoRefresh_counterexample :
    (runTimerCalls Timers.initial [.start, .start, .stop]).scheduled = [1] := by
  decide

theorem runTimerCalls_append (t : Timers) (a b : List TimerCall) :
    runTimerCalls t (a ++ b) = runTimerCalls (runTimerCalls t a) b := by
  induction a generalizing t with
  | nil => rfl
  | cons c rest ih => cases c <;> simp [runTimerCalls, ih]

theorem runTimerCalls_invariant (t : Timers) (calls : List TimerCall)
    (hpos : 0 < t.nextHandle)
    (hinv : t.scheduled = [] ∨ ∃ h, h ≠ 0 ∧ t.scheduled = [h] ∧ t.refreshTimer = some h)
    (hcalls : startsOnlyWhenStopped t calls = true) :
    (runTimerCalls t calls).scheduled = [] ∨
      ∃ h, h ≠ 0 ∧ (runTimerCalls t calls).scheduled = [h] ∧
        (runTimerCalls t calls).refreshTimer = some h := by
  induction calls generalizing t with
  | nil => exact hinv
  | cons c rest ih =>
    cases c with
    | start =>
      simp only [startsOnlyWhenStopped, Bool.and_eq_true, List.isEmpty_iff] at hcalls
      refine ih (startAutoRefresh t) ?_ ?_ hcalls.2
      · simp [startAutoRefresh]
      · right
        exact ⟨t.nextHandle, by omega, by simp [startAutoRefresh, hcalls.1], rfl⟩
    | stop =>
      simp only [startsOnlyWhenStopped] at hcalls
      refine ih (stopAutoRefresh t) ?_ ?_ hcalls
      · unfold stopAutoRefresh
        repeat' split
        all_goals exact hpos
      · left
        rcases hinv with h0 | ⟨h, hne, hs, hr⟩
        · unfold stopAutoRefresh
          repeat' split
          all_goals simp [h0]
        · simp [stopAutoRefresh, hr, hne, hs]

/-- C10, amended: for every sequence of `startAutoRefresh` and
`stopAutoRefresh` calls in which `startAutoRefresh` is only called while no
timer is scheduled, after a `stopAutoRefresh` call no interval timer remains
scheduled, so no tick invokes `refreshData` until `startAutoRefresh` is called
again. -/
theorem stopAutoRefresh_leaves_no_timer (calls : List TimerCall)
    (h : startsOnlyWhenStopped Timers.initial calls = true) :
    (runTimerCalls Timers.initial (calls ++ [.stop])).scheduled = [] := by
  rw [runTimerCalls_append]
  have hinv := runTimerCalls_invariant Timers.initial calls (by decide) (Or.inl rfl) h
  simp only [runTimerCalls]
  rcases hinv with h0 | ⟨hd, hne, hs, hr⟩
  · unfold stopAutoRefresh
    repeat' split
    all_goals simp [h0]
  · simp [stopAutoRefresh, hr, hne, hs]

/-- Witness for C10: start, stop, start again, then stop. -/
theorem stopAutoRefresh_leaves_no_timer_witness :
    startsOnlyWhenStopped Timers.initial [.start, .stop, .start] = true ∧
    (runTimerCalls Timers.initial ([.start, .stop, .start] ++ [.stop])).scheduled = [] :=
  ⟨by decide, stopAutoRefresh_leaves_no_timer [.start, .stop, .start] (by decide)⟩

/-! ## Hit rate in binary64 arithmetic -/

namespace Binary64

theorem bitLengthAux_zero (fuel : Nat) : bitLengthAux fuel 0 = 0 := by
  cases fuel <;> simp [bitLengthAux]

theorem two_pow_bitLengthAux_le (fuel m : Nat) (hm : m ≠ 0) :
    2 ^ bitLengthAux fuel m ≤ 2 * m := by
  induction fuel generalizing m with
  | zero => simp [bitLengthAux]; omega
  | succ f ih =>
    simp only [bitLengthAux, hm, if_false]
    by_cases h2 : m / 2 = 0
    · rw [h2, bitLengthAux_zero]
      simp
      omega
    · have := ih (m / 2) h2
      rw [pow_succ]
      omega

theorem lt_two_pow_bitLengthAux (fuel m : Nat) (hf : m ≤ fuel) :
    m < 2 ^ bitLengthAux fuel m := by
  induction fuel generalizing m with
  | zero =>
    have : m = 0 := by omega
    subst this
    simp [bitLengthAux]
  | succ f ih =>
    by_cases hm : m = 0
    · subst hm
      simp [bitLengthAux]
    · simp only [bitLengthAux, hm, if_false]
      have := ih (m / 2) (by omega)
      rw [pow_succ]
      omega

theorem bitLength_spec (m : Nat) (hm : m ≠ 0) :
    2 ^ (bitLength m - 1) ≤ m ∧ m < 2 ^ bitLength m := by
  have h1 := two_pow_bitLengthAux_le m m hm
  have h2 := lt_two_pow_bitLengthAux m m (Nat.le_refl m)
  refine ⟨?_, h2⟩
  have hpos : bitLength m ≠ 0 := by
    intro h0
    rw [show bitLengthAux m m = bitLength m from rfl, h0] at h2
    omega
  obtain ⟨k, hk⟩ : ∃ k, bitLength m = k + 1 := ⟨bitLength m - 1, by omega⟩
  rw [show bitLengthAux m m = bitLength m from rfl, hk, pow_succ] at h1
  rw [hk]
  simp only [Nat.add_sub_cancel]
  omega

theorem roundShift_near (m s : Nat) :
    2 * (roundShift m s * 2 ^ s) ≤ 2 * m + 2 ^ s ∧
    2 * m ≤ 2 * (roundShift m s * 2 ^ s) + 2 ^ s := by
  have hdm := Nat.div_add_mod m (2 ^ s)
  have hr := Nat.mod_lt m (Nat.two_pow_pos s)
  unfold roundShift
  generalize hP : 2 ^ s = P at *
  generalize hq : m / P = q at *
  generalize hrr : m % P = r at *
  have hmul : (q + 1) * P = P * q + P := by ring
  have hmul2 : q * P = P * q := by ring
  generalize ht : P * q = t at *
  split
  · rename_i hc
    rw [hmul]
    rcases hc with hc | ⟨hc, _⟩ <;> omega
  · rename_i hc
    rw [hmul2]
    have : ¬ P < 2 * r := fun h => hc (Or.inl h)
    omega

theorem roundShift_zero (s : Nat) : roundShift 0 s = 0 := by
  have := Nat.two_pow_pos s
  simp [roundShift]

theorem two_zpow_of_nonneg (e : Int) (he : 0 ≤ e) :
    (2 : ℚ) ^ e = ((2 ^ e.toNat : ℕ) : ℚ) := by
  obtain ⟨k, rfl⟩ : ∃ k : ℕ, e = (k : ℤ) := ⟨e.toNat, by omega⟩
  simp

theorem two_zpow_of_neg (e : Int) (he : e < 0) :
    (2 : ℚ) ^ e = 1 / ((2 ^ (-e).toNat : ℕ) : ℚ) := by
  obtain ⟨k, rfl⟩ : ∃ k : ℕ, e = -(k : ℤ) := ⟨(-e).toNat, by omega⟩
  simp

theorem two_zpow_pos (e : Int) : (0 : ℚ) < (2 : ℚ) ^ e := by
  positivity

theorem bitLength_add_le (M : Nat) (E : Int) (hM : M ≠ 0) (h : (M : ℚ) * (2 : ℚ) ^ E < 128) :
    (bitLength M : ℤ) + E ≤ 7 := by
  by_contra hcon
  have h8 : (8 : ℤ) ≤ (bitLength M : ℤ) + E := by omega
  have h1 : ((2 ^ bitLength M : ℕ) : ℚ) ≤ ((2 * M : ℕ) : ℚ) := by
    exact_mod_cast two_pow_bitLengthAux_le M M hM
  have h2 : (2 : ℚ) ^ (8 : ℤ) ≤ (2 : ℚ) ^ ((bitLength M : ℤ) + E) :=
    zpow_le_zpow_right₀ (by norm_num) h8
  rw [zpow_add₀ (by norm_num : (2 : ℚ) ≠ 0), zpow_natCast] at h2
  have hpos := two_zpow_pos E
  push_cast at h1
  have h3 : (2 : ℚ) ^ bitLength M * (2 : ℚ) ^ E ≤ 2 * (M : ℚ) * (2 : ℚ) ^ E :=
    mul_le_mul_of_nonneg_right h1 hpos.le
  norm_num at h2
  linarith

theorem round_near (neg : Bool) (M : Nat) (E : Int) (hle : (M : ℚ) * (2 : ℚ) ^ E ≤ 100) :
    ∃ pm pe, round neg M E = .fin neg pm pe ∧
      |(pm : ℚ) * (2 : ℚ) ^ pe - (M : ℚ) * (2 : ℚ) ^ E| ≤ 1 / 2 ^ 47 ∧ (M = 0 → pm = 0) := by
  by_cases hM : M = 0
  · subst hM
    by_cases hs : max ((bitLength 0 : ℤ) - 53) (-1074 - E) ≤ 0
    · exact ⟨0, E, by simp [round, hs], by simp, fun _ => rfl⟩
    · exact ⟨0, E + max ((bitLength 0 : ℤ) - 53) (-1074 - E),
        by simp [round, hs, roundShift_zero], by simp, fun _ => rfl⟩
  · have hB := bitLength_add_le M E hM (by linarith)
    by_cases hs : max ((bitLength M : ℤ) - 53) (-1074 - E) ≤ 0
    · refine ⟨M, E, ?_, by simp, fun h => absurd h hM⟩
      have hno : ¬(M ≠ 0 ∧ (bitLength M : ℤ) + E > 1024) := by omega
      simp [round, hs, hno]
    · obtain ⟨s, hsdef⟩ : ∃ s : ℕ, max ((bitLength M : ℤ) - 53) (-1074 - E) = (s : ℤ) :=
        ⟨(max ((bitLength M : ℤ) - 53) (-1074 - E)).toNat, by omega⟩
      have hsE : E + (s : ℤ) ≤ -46 := by omega
      have hnear := roundShift_near M s
      have hpow : (2 : ℚ) ^ (E + (s : ℤ)) = (2 : ℚ) ^ E * (2 : ℚ) ^ s := by
        rw [zpow_add₀ (by norm_num : (2 : ℚ) ≠ 0), zpow_natCast]
      have hpos := two_zpow_pos E
      have h1 : (2 : ℚ) * ((roundShift M s : ℚ) * (2 : ℚ) ^ s) ≤ 2 * (M : ℚ) + (2 : ℚ) ^ s := by
        exact_mod_cast hnear.1
      have h2 : (2 : ℚ) * (M : ℚ) ≤ 2 * ((roundShift M s : ℚ) * (2 : ℚ) ^ s) + (2 : ℚ) ^ s := by
        exact_mod_cast hnear.2
      have hsmall : (2 : ℚ) ^ E * (2 : ℚ) ^ s ≤ 1 / 2 ^ 46 := by
        rw [← hpow]
        have := zpow_le_zpow_right₀ (by norm_num : (1 : ℚ) ≤ 2) hsE
        norm_num at this ⊢
        exact this
      have m1 := mul_le_mul_of_nonneg_left h1 hpos.le
      have m2 := mul_le_mul_of_nonneg_left h2 hpos.le
      have key : |(roundShift M s : ℚ) * (2 : ℚ) ^ (E + (s : ℤ)) - (M : ℚ) * (2 : ℚ) ^ E| ≤
          1 / 2 ^ 47 := by
        rw [hpow, abs_le]
        constructor <;> nlinarith
      have hno : ¬(roundShift M s ≠ 0 ∧
          (bitLength (roundShift M s) : ℤ) + (E + (s : ℤ)) > 1024) := by
        rintro ⟨hne, hgt⟩
        have hval : (roundShift M s : ℚ) * (2 : ℚ) ^ (E + (s : ℤ)) < 128 := by
          have := (abs_le.1 key).2
          norm_num at this
          linarith
        have := bitLength_add_le (roundShift M s) (E + (s : ℤ)) hne hval
        omega
      refine ⟨roundShift M s, E + (s : ℤ), ?_, key, fun h => absurd h hM⟩
      have hs' : ¬ ((s : ℤ) ≤ 0) := by rw [← hsdef]; exact hs
      simp only [round, hsdef, hs', if_false, Int.toNat_ofNat, hno]

theorem round_representable (neg : Bool) (m : Nat) (e : Int)
    (h : (Binary64.fin neg m e).representable = true) : round neg m e = .fin neg m e := by
  simp only [representable, Bool.and_eq_true, decide_eq_true_eq] at h
  obtain ⟨⟨hm, he⟩, hmag⟩ := h
  have hlen : (bitLength m : ℤ) ≤ 53 := by
    by_cases h0 : m = 0
    · subst h0
      simp [bitLength, bitLengthAux]
    · have h1 := two_pow_bitLengthAux_le m m h0
      have h2 : 2 ^ bitLengthAux m m < 2 ^ 54 := by omega
      have := (Nat.pow_lt_pow_iff_right (by norm_num : 1 < 2)).1 h2
      have hb : bitLength m = bitLengthAux m m := rfl
      omega
  have hs : max ((bitLength m : ℤ) - 53) (-1074 - e) ≤ 0 := by omega
  have hno : ¬(m ≠ 0 ∧ (bitLength m : ℤ) + e > 1024) := by omega
  simp [round, hs, hno]

theorem tenths_eq_floor (m : Nat) (e : Int) :
    ((tenths m e : ℕ) : ℤ) = ⌊10 * ((m : ℚ) * (2 : ℚ) ^ e) + 1 / 2⌋ := by
  symm
  rw [Int.floor_eq_iff]
  unfold tenths
  split
  · rename_i he
    rw [two_zpow_of_nonneg e he]
    push_cast
    constructor <;> linarith
  · rename_i he
    have he' : e < 0 := by omega
    rw [two_zpow_of_neg e he']
    generalize (-e).toNat = k
    have hb : 0 < 2 ^ (k + 1) := Nat.two_pow_pos _
    have hlow := Nat.div_mul_le_self (20 * m + 2 ^ k) (2 ^ (k + 1))
    have hup := Nat.lt_mul_div_succ (20 * m + 2 ^ k) hb
    generalize (20 * m + 2 ^ k) / 2 ^ (k + 1) = n at hlow hup
    have hP : (0 : ℚ) < (2 : ℚ) ^ k := by positivity
    have hlow' : (n : ℚ) * (2 * (2 : ℚ) ^ k) ≤ 20 * (m : ℚ) + (2 : ℚ) ^ k := by
      have : ((n * 2 ^ (k + 1) : ℕ) : ℚ) ≤ ((20 * m + 2 ^ k : ℕ) : ℚ) := by exact_mod_cast hlow
      push_cast at this
      rw [pow_succ] at this
      linarith
    have hup' : 20 * (m : ℚ) + (2 : ℚ) ^ k < ((n : ℚ) + 1) * (2 * (2 : ℚ) ^ k) := by
      have : ((20 * m + 2 ^ k : ℕ) : ℚ) < ((2 ^ (k + 1) * (n + 1) : ℕ) : ℚ) := by
        exact_mod_cast hup
      push_cast at this
      rw [pow_succ] at this
      linarith
    have hval : 10 * ((m : ℚ) * (1 / ((2 ^ k : ℕ) : ℚ))) + 1 / 2 =
        (20 * (m : ℚ) + (2 : ℚ) ^ k) / (2 * (2 : ℚ) ^ k) := by
      push_cast
      field_simp
      ring
    rw [hval]
    push_cast
    constructor
    · rw [le_div_iff₀ (by positivity)]
      exact hlow'
    · rw [div_lt_iff₀ (by positivity)]
      exact hup'

theorem atLeast1e21_eq_false (m : Nat) (e : Int) (h : (m : ℚ) * (2 : ℚ) ^ e < 10 ^ 21) :
    atLeast1e21 m e = false := by
  unfold atLeast1e21
  split
  · rename_i he
    rw [two_zpow_of_nonneg e he] at h
    have : ¬ (10 ^ 21 ≤ m * 2 ^ e.toNat) := by
      intro hcon
      have : ((10 ^ 21 : ℕ) : ℚ) ≤ ((m * 2 ^ e.toNat : ℕ) : ℚ) := by exact_mod_cast hcon
      push_cast at this
      push_cast at h
      linarith
    simp only [decide_eq_false_iff_not]
    exact this
  · rename_i he
    have he' : e < 0 := by omega
    rw [two_zpow_of_neg e he'] at h
    have hP : (0 : ℚ) < ((2 ^ (-e).toNat : ℕ) : ℚ) := by positivity
    have : ¬ (10 ^ 21 * 2 ^ (-e).toNat ≤ m) := by
      intro hcon
      have hc : ((10 ^ 21 * 2 ^ (-e).toNat : ℕ) : ℚ) ≤ (m : ℚ) := by exact_mod_cast hcon
      rw [mul_one_div, div_lt_iff₀ hP] at h
      push_cast at hc h
      linarith
    simp only [decide_eq_false_iff_not]
    exact this

theorem toString_digit (d : Nat) (hd : d < 10) :
    toString d = String.singleton (Nat.digitChar d) := by
  interval_cases d <;> rfl

end Binary64

/-- C5 as stated fails: for the double nearest to 0.0015 the text written to
the hit-rate field is `0.1%`, while 0.0015×100 rounded to one decimal place
is 0.2, and 0.1 is not a nearest one-decimal value of it under any rule for
halves. -/
theorem hitRateText_rounding_counterexample :
    f0015.representable = true ∧ 0 ≤ f0015.toRat ∧ f0015.toRat ≤ 1 ∧
    (∀ toStr parse, hitRateText (binary64Ops toStr parse) (.num f0015) = .ok "0.1%") ∧
    (∀ toStr parse,
      (refreshData (binary64Ops toStr parse) envD state0).page.cacheHitRate = some "0.1%") ∧
    roundTenths (100 * f0015.toRat) = 2 ∧
    1 / 20 < |(1 : ℚ) / 10 - 100 * f0015.toRat| := by
  refine ⟨by decide, ?_, ?_, fun _ _ => rfl, fun _ _ => rfl, ?_, ?_⟩
  · norm_num [f0015, Binary64.toRat]
  · norm_num [f0015, Binary64.toRat]
  · rw [roundTenths, Int.floor_eq_iff]
    norm_num [f0015, Binary64.toRat]
  · norm_num [f0015, Binary64.toRat, abs_lt, lt_abs]

/-- C5, amended: for every hit rate `f` with `0 ≤ f ≤ 1`, the text written is
the product `f * 100` computed in binary64, which is within `2^-47` of f×100,
rounded to one decimal place with a half rounded upward, written with exactly
one digit after the decimal point and followed by `%`; 0.5 gives `50.0%`,
1 gives `100.0%` and 0.873 gives `87.3%`. -/
theorem hitRateText_rounds_the_double_product (toStr : Binary64 → String)
    (parse : String → Binary64) (neg : Bool) (m : Nat) (e : Int)
    (h0 : 0 ≤ (Binary64.fin neg m e).toRat) (h1 : (Binary64.fin neg m e).toRat ≤ 1) :
    (∃ (p : Binary64) (n : ℕ),
      Binary64.mul (.fin neg m e) (Binary64.ofNat 100) = p ∧
      |p.toRat - 100 * (Binary64.fin neg m e).toRat| ≤ 1 / 2 ^ 47 ∧
      (n : ℤ) = roundTenths p.toRat ∧ n ≤ 1000 ∧
      hitRateText (binary64Ops toStr parse) (.num (.fin neg m e)) =
        .ok (toString (n / 10) ++ "." ++ String.singleton (Nat.digitChar (n % 10)) ++ "%") ∧
      ∀ (fields : List (String × JsVal Binary64)) (page : Page) (shown : String),
        lookupField "hit_rate" fields = .num (.fin neg m e) → page.cacheHitRate = some shown →
        (renderCacheHitRate (binary64Ops toStr parse) (.obj fields) page).1.cacheHitRate =
          some (toString (n / 10) ++ "." ++ String.singleton (Nat.digitChar (n % 10)) ++ "%")) ∧
    hitRateText (binary64Ops toStr parse) (.num (.fin false 1 (-1))) = .ok "50.0%" ∧
    hitRateText (binary64Ops toStr parse) (.num (.fin false 1 0)) = .ok "100.0%" ∧
    hitRateText (binary64Ops toStr parse) (.num f873) = .ok "87.3%" := by
  refine ⟨?_, rfl, rfl, rfl⟩
  have h100 : Binary64.ofNat 100 = .fin false 100 0 := by decide
  have hmul : Binary64.mul (.fin neg m e) (.fin false 100 0) =
      Binary64.round neg (m * 100) e := by
    cases neg <;> simp [Binary64.mul]
  have hpos := Binary64.two_zpow_pos e
  have hval : ((m * 100 : ℕ) : ℚ) * (2 : ℚ) ^ e ≤ 100 ∧ (neg = true → m = 0) := by
    cases neg
    · simp only [Binary64.toRat, Bool.false_eq_true, if_false, one_mul] at h1
      push_cast
      exact ⟨by nlinarith, by simp⟩
    · simp only [Binary64.toRat, if_true] at h0
      have hm0 : (m : ℚ) ≤ 0 := by
        by_contra hcon
        push_neg at hcon
        have := mul_pos hcon hpos
        linarith
      have hm : m = 0 := by
        have : (m : ℚ) = 0 := le_antisymm hm0 (by positivity)
        exact_mod_cast this
      subst hm
      exact ⟨by simp, fun _ => rfl⟩
  obtain ⟨hle, hneg⟩ := hval
  obtain ⟨pm, pe, hr, hb, hz⟩ := Binary64.round_near neg (m * 100) e hle
  have hsign : (if neg then (-1 : ℚ) else 1) * ((pm : ℚ) * (2 : ℚ) ^ pe) =
      (pm : ℚ) * (2 : ℚ) ^ pe := by
    cases neg
    · simp
    · have : pm = 0 := hz (by rw [hneg rfl])
      subst this
      simp
  have hsign' : (if neg then (-1 : ℚ) else 1) * ((m : ℚ) * (2 : ℚ) ^ e) =
      (m : ℚ) * (2 : ℚ) ^ e := by
    cases neg
    · simp
    · rw [hneg rfl]
      simp
  have hbound : |(pm : ℚ) * (2 : ℚ) ^ pe - 100 * ((m : ℚ) * (2 : ℚ) ^ e)| ≤ 1 / 2 ^ 47 := by
    have : (pm : ℚ) * (2 : ℚ) ^ pe - 100 * ((m : ℚ) * (2 : ℚ) ^ e) =
        (pm : ℚ) * (2 : ℚ) ^ pe - ((m * 100 : ℕ) : ℚ) * (2 : ℚ) ^ e := by
      push_cast
      ring
    rw [this]
    exact hb
  have hfloor : ((Binary64.tenths pm pe : ℕ) : ℤ) = roundTenths ((pm : ℚ) * (2 : ℚ) ^ pe) :=
    Binary64.tenths_eq_floor pm pe
  have hp128 : (pm : ℚ) * (2 : ℚ) ^ pe < 128 := by
    have := (abs_le.1 hb).2
    have hle' := hle
    push_cast at this hle'
    norm_num at this
    linarith
  have htext : hitRateText (binary64Ops toStr parse) (.num (.fin neg m e)) =
      .ok (toString (Binary64.tenths pm pe / 10) ++ "." ++
        String.singleton (Nat.digitChar (Binary64.tenths pm pe % 10)) ++ "%") := by
    have hbig := Binary64.atLeast1e21_eq_false pm pe (by linarith)
    have hsg : (neg && pm != 0) = false := by
      cases neg
      · rfl
      · have : pm = 0 := hz (by rw [hneg rfl])
        subst this
        rfl
    have hd := Binary64.toString_digit (Binary64.tenths pm pe % 10) (Nat.mod_lt _ (by norm_num))
    simp only [hitRateText, JsVal.present, JsVal.toNumber, binary64Ops, if_true, h100, hmul, hr,
      Binary64.toFixed1, hbig, hsg, Binary64.fixed1, hd]
    simp
  refine ⟨.fin neg pm pe, Binary64.tenths pm pe, by rw [h100, hmul, hr], ?_, ?_, ?_, htext, ?_⟩
  · simp only [Binary64.toRat, hsign, hsign']
    exact hbound
  · simp only [Binary64.toRat, hsign]
    exact hfloor
  · have hfl : ((Binary64.tenths pm pe : ℕ) : ℚ) ≤ 10 * ((pm : ℚ) * (2 : ℚ) ^ pe) + 1 / 2 := by
      have := Int.floor_le (10 * ((pm : ℚ) * (2 : ℚ) ^ pe) + 1 / 2)
      rw [← roundTenths, ← hfloor] at this
      exact_mod_cast this
    have hup := (abs_le.1 hbound).2
    have hf : (m : ℚ) * (2 : ℚ) ^ e ≤ 1 := by rw [← hsign']; exact h1
    have hlt : ((Binary64.tenths pm pe : ℕ) : ℚ) < 1001 := by
      norm_num at hup
      linarith
    have : Binary64.tenths pm pe < 1001 := by exact_mod_cast hlt
    omega
  · intro fields page shown hlook hshown
    simp [renderCacheHitRate, hshown, JsVal.getProp, hlook, htext]

/-- Witness for C5: the amended statement at the double nearest to 0.0015. -/
theorem hitRateText_rounds_the_double_product_witness :
    0 ≤ (Binary64.fin false 3458764513820541 (-61)).toRat ∧
    (Binary64.fin false 3458764513820541 (-61)).toRat ≤ 1 ∧
    ∀ toStr parse, ∃ (p : Binary64) (n : ℕ),
      Binary64.mul (.fin false 3458764513820541 (-61)) (Binary64.ofNat 100) = p ∧
      |p.toRat - 100 * (Binary64.fin false 3458764513820541 (-61)).toRat| ≤ 1 / 2 ^ 47 ∧
      (n : ℤ) = roundTenths p.toRat ∧ n ≤ 1000 ∧
      hitRateText (binary64Ops toStr parse) (.num (.fin false 3458764513820541 (-61))) =
        .ok (toString (n / 10) ++ "." ++ String.singleton (Nat.digitChar (n % 10)) ++ "%") ∧
      ∀ (fields : List (String × JsVal Binary64)) (page : Page) (shown : String),
        lookupField "hit_rate" fields = .num (.fin false 3458764513820541 (-61)) →
        page.cacheHitRate = some shown →
        (renderCacheHitRate (binary64Ops toStr parse) (.obj fields) page).1.cacheHitRate =
          some (toString (n / 10) ++ "." ++ String.singleton (Nat.digitChar (n % 10)) ++ "%") :=
  ⟨by norm_num [Binary64.toRat], by norm_num [Binary64.toRat], fun toStr parse =>
    (hitRateText_rounds_the_double_product toStr parse false 3458764513820541 (-61)
      (by norm_num [Binary64.toRat]) (by norm_num [Binary64.toRat])).1⟩

end Dashboard
